import Mathlib

/-!
Verification of the context-engineering pipeline (context-need classifier,
content compressor, context-quality analyzer, performance monitor) of the
`deep-knowledge-ai-plf-microservices` langchain-python-service against its
specification.  Python strings are modelled as Lean `String`s (lists of
unicode code points), Python floats as exact rationals `ℚ`, Python `datetime`
values as rational epoch seconds.  Character classes of the regular
expressions in the source (`\w`, `str.lower`, `str.isupper`, …) are modelled
at ASCII granularity.
-/

/-! ## Python string primitives -/

/-- Model of `str.lower()` (ASCII granularity). -/
def pyLower (s : String) : String := ⟨s.data.map Char.toLower⟩

/-- Whitespace characters recognised by `str.split()` / `str.strip()`. -/
def isWsChar (c : Char) : Bool := c = ' ' || c = '\t' || c = '\n' || c = '\r'

/-- Model of `str.strip()` on a character list: drop whitespace at both ends. -/
def stripChars (cs : List Char) : List Char :=
  ((cs.dropWhile isWsChar).reverse.dropWhile isWsChar).reverse

/-- Model of `str.strip()`. -/
def pyStrip (s : String) : String := ⟨stripChars s.data⟩

/-- Split a character list on whitespace runs, discarding empty tokens
(model of `str.split()` with no argument). -/
def splitWsChars : List Char → List Char → List (List Char)
  | [], acc => if acc.isEmpty then [] else [acc.reverse]
  | c :: rest, acc =>
    if isWsChar c then
      if acc.isEmpty then splitWsChars rest [] else acc.reverse :: splitWsChars rest []
    else splitWsChars rest (c :: acc)

/-- Model of `str.split()` (whitespace tokenization, no empty tokens). -/
def pySplitWs (s : String) : List String := (splitWsChars s.data []).map (fun cs => ⟨cs⟩)

/-- Test whether `pat` occurs at the start of `cs`. -/
def charsStartWith : List Char → List Char → Bool
  | _, [] => true
  | [], _ :: _ => false
  | c :: cs, p :: ps => c = p && charsStartWith cs ps

/-- Test whether `pat` occurs anywhere in `hay`
(model of the Python substring test `pat in hay`). -/
def charsContain (hay pat : List Char) : Bool :=
  match hay with
  | [] => pat.isEmpty
  | _ :: rest => charsStartWith hay pat || charsContain rest pat

/-- Model of the Python substring test `pat in s`. -/
def containsSubstr (s pat : String) : Bool := charsContain s.data pat.data

/-- Split a character list at newline characters
(model of `str.split('\n')`). -/
def splitLinesChars : List Char → List (List Char)
  | [] => [[]]
  | c :: rest =>
    if c = '\n' then [] :: splitLinesChars rest
    else
      match splitLinesChars rest with
      | l :: ls => (c :: l) :: ls
      | [] => [[c]]

/-- Model of `str.split('\n')`. -/
def pySplitLines (s : String) : List String := (splitLinesChars s.data).map (fun cs => ⟨cs⟩)

/-- ASCII model of the regex word-character class `\w`. -/
def isWordChar (c : Char) : Bool := c.isAlphanum || c = '_'

/-- Maximal runs of word characters in a character list (model of
`re.findall(r'\w+', ·)`; a length bound is applied by the callers). -/
def wordRunsChars : List Char → List Char → List (List Char)
  | [], acc => if acc.isEmpty then [] else [acc.reverse]
  | c :: rest, acc =>
    if isWordChar c then wordRunsChars rest (c :: acc)
    else if acc.isEmpty then wordRunsChars rest [] else acc.reverse :: wordRunsChars rest []

/-- Model of `re.findall(r'\w{n,}', s)`: maximal word-character runs of
length at least `n` (a maximal run shorter than `n` yields no match). -/
def wordRuns (n : Nat) (s : String) : List String :=
  ((wordRunsChars s.data []).filter (fun r => n ≤ r.length)).map (fun cs => ⟨cs⟩)

/-- Keep the first occurrence of every element, preserving order. -/
def dedupKeepFirst : List String → List String → List String
  | [], _ => []
  | w :: rest, seen =>
    if seen.contains w then dedupKeepFirst rest seen
    else w :: dedupKeepFirst rest (w :: seen)

/-- Last `n` entries of a list. -/
def lastN (n : ℕ) (l : List α) : List α := l.drop (l.length - n)

/-- Python truthiness of an optional string: `None` and `""` are falsy. -/
def optStrTruthy : Option String → Bool
  | some sm => sm != ""
  | none => false

/-- Model of Python `min` on two floats. -/
def pyMin (a b : ℚ) : ℚ := if a ≤ b then a else b

/-- Model of Python `max` on two floats. -/
def pyMax (a b : ℚ) : ℚ := if a ≤ b then b else a

/-- Occurrence of a word-bounded match of `pat` at the start of `cs`:
the match must not be followed by a word character (model of a trailing
regex `\b`). -/
def boundedAtHere (cs pat : List Char) : Bool :=
  charsStartWith cs pat &&
    match cs.drop pat.length with
    | [] => true
    | d :: _ => !isWordChar d

/-- Scan for a word-bounded occurrence of `pat`; `prevIsWord` records
whether the previous character was a word character (model of a leading
regex `\b`). -/
def boundedScan (pat : List Char) : List Char → Bool → Bool
  | [], _ => false
  | c :: rest, prevIsWord =>
    (!prevIsWord && boundedAtHere (c :: rest) pat) || boundedScan pat rest (isWordChar c)

/-- Model of `re.search(r'\b…\b', s)` for a literal alternative `pat`
(ASCII `\w` granularity). -/
def containsWordBounded (s pat : String) : Bool :=
  if pat.data.isEmpty then false else boundedScan pat.data s.data false

/-! ## Context-need classifier (`app/agents/router_agent.py`) -/

/-- Context-need categories (`ContextNeedType`). -/
inductive ContextNeedType
  | NONE
  | RECENT_ONLY
  | SMART_RETRIEVAL
  | FULL_CONTEXT
deriving DecidableEq, Repr

/-- Classification outcome (`ContextNeed`): category, rationale, extracted
keywords and confidence. -/
structure ContextNeed where
  type : ContextNeedType
  reason : String
  keywords : List String
  confidence : ℚ
deriving DecidableEq, Repr

/-- Per-category pattern table entry of `PATTERN_DEFINITIONS`.  An absent
`negative_patterns` key is modelled as the empty list (no negative match can
occur, exactly as in the source, where the penalty branch is guarded by
`negative_matches > 0`). -/
structure PatternConfig where
  patterns : List String
  negativePatterns : List String
  contextType : ContextNeedType
  confidence : ℚ
deriving DecidableEq, Repr

/-- The `PATTERN_DEFINITIONS` table, in dict insertion order. -/
def patternDefinitions : List (String × PatternConfig) :=
  [ ("greeting",
     ⟨[ "xin chào", "hello", "hi", "chào bạn", "chào", "halo",
        "good morning", "good afternoon", "good evening",
        "hey", "bonjour", "hola" ],
      [ "chào hỏi về", "chào và hỏi", "xin chào tôi muốn hỏi",
        "chào bạn có thể", "hello can you" ],
      ContextNeedType.NONE, 0.95⟩),
    ("new_topic",
     ⟨[ "chuyển chủ đề", "hỏi khác", "topic mới", "bây giờ", "giờ tôi muốn",
        "câu hỏi khác", "vấn đề khác", "thay đổi chủ đề", "sang vấn đề",
        "không liên quan nhưng", "btw", "by the way", "ngoài ra" ],
      [ "liên quan đến", "về chủ đề", "tiếp tục chủ đề" ],
      ContextNeedType.NONE, 0.85⟩),
    ("continuation",
     ⟨[ "tiếp tục", "như bạn nói", "như bạn vừa", "theo như", "dựa trên",
        "từ phần trước", "quay lại", "như đã nói", "như vậy thì",
        "nói thêm về", "giải thích thêm", "chi tiết hơn", "cụ thể hơn",
        "elaborate", "more about", "continue" ],
      [], ContextNeedType.RECENT_ONLY, 0.9⟩),
    ("clarification",
     ⟨[ "ý bạn là", "bạn có thể giải thích", "không hiểu", "làm rõ",
        "what do you mean", "can you explain", "huh", "sao cơ",
        "nghĩa là sao", "tức là", "có phải là" ],
      [], ContextNeedType.RECENT_ONLY, 0.85⟩),
    ("reference",
     ⟨[ "trước đó", "lúc nãy", "vừa rồi", "phần trước", "ban nãy",
        "earlier", "previously", "before", "above",
        "như đã thảo luận", "như đã đề cập" ],
      [], ContextNeedType.RECENT_ONLY, 0.85⟩),
    ("historical",
     ⟨[ "tuần trước", "hôm qua", "tháng trước", "nhớ không", "lần trước",
        "đã nói", "đã hỏi", "đã thảo luận", "lịch sử", "trước đây",
        "last week", "yesterday", "last time", "remember when",
        "ngày", "hôm", "lúc" ],
      [], ContextNeedType.SMART_RETRIEVAL, 0.9⟩),
    ("search",
     ⟨[ "tìm", "nhớ lại", "về vấn đề", "liên quan đến", "chủ đề",
        "search for", "find", "lookup", "về cái", "về phần",
        "khi nào", "ở đâu", "ai đã" ],
      [], ContextNeedType.SMART_RETRIEVAL, 0.8⟩),
    ("summary",
     ⟨[ "tóm tắt", "kết luận", "tổng kết", "toàn bộ cuộc hội thoại",
        "review lại", "recap", "summarize", "tổng hợp", "liệt kê",
        "những gì đã", "tất cả những", "overview", "big picture" ],
      [], ContextNeedType.FULL_CONTEXT, 0.95⟩) ]

/-- One entry of the `recent_messages` list (a Python dict with `role` and
`content` keys). -/
structure RecentMsg where
  role : String
  content : String
deriving DecidableEq, Repr

/-- Model of `RouterAgent._calculate_pattern_score`: fraction of positive
patterns found, reduced by up to 50% in proportion to negative matches. -/
def calculatePatternScore (message : String) (config : PatternConfig) : ℚ :=
  let positiveMatches := config.patterns.countP (fun p => containsSubstr message p)
  let negativeMatches := config.negativePatterns.countP (fun p => containsSubstr message p)
  if positiveMatches = 0 then 0
  else
    let score : ℚ := (positiveMatches : ℚ) / (config.patterns.length : ℚ)
    if 0 < negativeMatches then
      score * (1 - ((negativeMatches : ℚ) / (config.negativePatterns.length : ℚ)) * 0.5)
    else score

/-- The best-match scan of `_enhanced_pattern_analysis`: iterate over the
pattern table keeping the first strictly improving score. -/
def bestMatchLoop (message : String) :
    List (String × PatternConfig) → Option (String × PatternConfig) → ℚ →
    Option (String × PatternConfig) × ℚ
  | [], best, bestScore => (best, bestScore)
  | (name, config) :: rest, best, bestScore =>
    let score := calculatePatternScore message config
    if bestScore < score then bestMatchLoop message rest (some (name, config)) score
    else bestMatchLoop message rest best bestScore

/-- Best pattern match over the full `PATTERN_DEFINITIONS` table, starting
from `best_match = None`, `best_score = 0.0`. -/
def findBestMatch (message : String) : Option (String × PatternConfig) × ℚ :=
  bestMatchLoop message patternDefinitions none 0

/-- Stop words of `RouterAgent._extract_keywords`. -/
def routerStopWords : List String :=
  [ "và", "của", "với", "trong", "về", "cho", "từ", "có", "là", "được",
    "này", "đó", "tôi", "bạn", "chúng", "ta", "một", "các", "những",
    "như", "thì", "để", "khi", "nếu", "vì", "do", "bởi", "theo",
    "the", "and", "or", "but", "in", "on", "at", "to", "for", "of",
    "with", "a", "an", "is", "are", "was", "were", "been", "have", "has" ]

/-- Model of `str.isalpha()` (ASCII granularity): nonempty and all
alphabetic. -/
def pyIsAlpha (s : String) : Bool := !s.data.isEmpty && s.data.all Char.isAlpha

/-- ASCII lowercase letter test. -/
def isLowerAlpha (c : Char) : Bool := 'a' ≤ c && c ≤ 'z'

/-- ASCII uppercase letter test. -/
def isUpperAlpha (c : Char) : Bool := 'A' ≤ c && c ≤ 'Z'

/-- Match `[A-Z][a-z]+` at the head of a character list, returning the match
and the rest. -/
def capWordHere : List Char → Option (List Char × List Char)
  | [] => none
  | c :: rest =>
    if isUpperAlpha c then
      let tail := rest.takeWhile isLowerAlpha
      if tail.isEmpty then none else some (c :: tail, rest.drop tail.length)
    else none

/-- Greedy continuation `(?:\s+[A-Z][a-z]+)*` of a capitalized-phrase match. -/
def capPhraseRest (fuel : Nat) (cs : List Char) (acc : List Char) : List Char × List Char :=
  match fuel with
  | 0 => (acc, cs)
  | fuel + 1 =>
    let ws := cs.takeWhile isWsChar
    if ws.isEmpty then (acc, cs)
    else
      match capWordHere (cs.drop ws.length) with
      | some (w, rest) => capPhraseRest fuel rest (acc ++ ws ++ w)
      | none => (acc, cs)

/-- Left-to-right non-overlapping scan for
`re.findall(r'[A-Z][a-z]+(?:\s+[A-Z][a-z]+)*', s)`. -/
def capPhrasesScan (fuel : Nat) (cs : List Char) : List (List Char) :=
  match fuel with
  | 0 => []
  | fuel + 1 =>
    match cs with
    | [] => []
    | c :: rest =>
      match capWordHere (c :: rest) with
      | some (w, after) =>
        let (phrase, after') := capPhraseRest after.length after w
        phrase :: capPhrasesScan fuel after'
      | none => capPhrasesScan fuel rest

/-- Model of the capitalized-phrase extraction
`re.findall(r'[A-Z][a-z]+(?:\s+[A-Z][a-z]+)*', message)`. -/
def capPhrases (s : String) : List String :=
  (capPhrasesScan (s.data.length + 1) s.data).map (fun cs => ⟨cs⟩)

/-- Model of `RouterAgent._extract_keywords`: stop-word-filtered alphabetic
words of length ≥ 3 plus lowercased capitalized phrases, deduplicated,
capped at 7. -/
def routerExtractKeywords (message : String) : List String :=
  let words := wordRuns 3 (pyLower message)
  let keywords := words.filter (fun w => !routerStopWords.contains w && pyIsAlpha w)
  let keywords := keywords ++ (capPhrases message).map pyLower
  (dedupKeepFirst keywords []).take 7

/-- Common words removed by `RouterAgent._messages_related`. -/
def relatedCommonWords : List String :=
  [ "the", "and", "của", "với", "trong", "cho", "này", "khi", "để" ]

/-- Model of `RouterAgent._messages_related`: >30% overlap of the 3+-letter
word sets of the two messages (Python set semantics modelled by
first-occurrence deduplication). -/
def messagesRelated (msg1 msg2 : String) : Bool :=
  let words1 := dedupKeepFirst ((wordRuns 3 msg1).map pyLower) []
  let words2 := dedupKeepFirst ((wordRuns 3 msg2).map pyLower) []
  let words1 := words1.filter (fun w => !relatedCommonWords.contains w)
  let words2 := words2.filter (fun w => !relatedCommonWords.contains w)
  if words1.isEmpty || words2.isEmpty then false
  else
    let overlap := (words1.filter (fun w => words2.contains w)).length
    let minLen := min words1.length words2.length
    (3 : ℚ)/10 < (overlap : ℚ) / (minLen : ℚ)

/-- Word alternatives of the first implicit-reference pattern
`\b(nó|họ|cái đó|cái này|điều đó|điều này|vấn đề đó|chủ đề đó)\b`. -/
def implicitWords1 : List String :=
  [ "nó", "họ", "cái đó", "cái này", "điều đó", "điều này", "vấn đề đó", "chủ đề đó" ]

/-- Word alternatives of `\b(it|they|this|that|these|those|the same)\b`. -/
def implicitWords2 : List String :=
  [ "it", "they", "this", "that", "these", "those", "the same" ]

/-- Word alternatives of `\b(vậy|thế|như vậy|như thế|do đó|vì vậy)\b`. -/
def implicitWords3 : List String :=
  [ "vậy", "thế", "như vậy", "như thế", "do đó", "vì vậy" ]

/-- Leading-conjunction alternatives of `^(và|nhưng|hoặc|tuy nhiên|mặc dù)`
(anchored at the start, no trailing boundary). -/
def implicitStarts : List String :=
  [ "và", "nhưng", "hoặc", "tuy nhiên", "mặc dù" ]

/-- Model of `RouterAgent._has_implicit_reference`. -/
def hasImplicitReference (message : String) : Bool :=
  let ml := pyLower message
  implicitWords1.any (fun w => containsWordBounded ml w) ||
  implicitWords2.any (fun w => containsWordBounded ml w) ||
  implicitWords3.any (fun w => containsWordBounded ml w) ||
  implicitStarts.any (fun w => ml.data |> (fun cs => charsStartWith cs w.data))

/-- Model of `RouterAgent._heuristic_analysis` (fallback when no pattern
matches). -/
def heuristicAnalysis (message : String) (recentMessages : List RecentMsg) : ContextNeed :=
  let messageLower := pyLower message
  if containsSubstr message "?" ||
     ["gì", "nào", "sao", "thế nào", "bao nhiêu"].any (fun q => containsSubstr messageLower q) then
    if recentMessages ≠ [] then
      let lastMessage := (recentMessages.getLast?.map RecentMsg.content).getD ""
      if messagesRelated message lastMessage then
        ⟨ContextNeedType.RECENT_ONLY, "Câu hỏi liên quan đến nội dung gần đây", [], 0.7⟩
      else
        ⟨ContextNeedType.NONE, "Câu hỏi độc lập", [], 0.6⟩
    else
      ⟨ContextNeedType.NONE, "Câu hỏi độc lập", [], 0.6⟩
  else if recentMessages ≠ [] then
    ⟨ContextNeedType.RECENT_ONLY, "Tiếp tục cuộc hội thoại", [], 0.65⟩
  else
    ⟨ContextNeedType.NONE, "Không xác định rõ context need", [], 0.5⟩

/-- Model of `RouterAgent._enhanced_pattern_analysis`.  `None` and the
empty `recent_messages` list are behaviourally identical in the source
(both falsy), so the history is modelled as a plain list. -/
def enhancedPatternAnalysis (message : String) (recentMessages : List RecentMsg) : ContextNeed :=
  let messageLower := pyStrip (pyLower message)
  let messageLength := (pySplitWs message).length
  if messageLength ≤ 2 then
    if recentMessages ≠ [] then
      ⟨ContextNeedType.RECENT_ONLY, "Tin nhắn ngắn, có thể là tiếp tục", [], 0.7⟩
    else
      ⟨ContextNeedType.NONE, "Tin nhắn ngắn, không có context", [], 0.8⟩
  else
    match findBestMatch messageLower with
    | (some (category, config), bestScore) =>
      if 0 < bestScore then
        let confidence := config.confidence * bestScore
        let confidence :=
          if category = "greeting" ∧ recentMessages = [] then
            pyMin (confidence * 1.2) 0.95
          else confidence
        let keywords :=
          if config.contextType = ContextNeedType.SMART_RETRIEVAL then
            routerExtractKeywords message
          else []
        ⟨config.contextType, "Pattern match: " ++ category, keywords, confidence⟩
      else heuristicAnalysis message recentMessages
    | (none, _) => heuristicAnalysis message recentMessages

/-- Model of `RouterAgent._analyze_with_context` (level-2 context-aware
adjustment). -/
def analyzeWithContext (message : String) (recentMessages : List RecentMsg)
    (initialResult : ContextNeed) : ContextNeed :=
  if 3 ≤ recentMessages.length ∧
     initialResult.type = ContextNeedType.NONE ∧ initialResult.confidence < 0.7 ∧
     (containsSubstr message "?" ||
      ["how", "what", "why", "when", "where"].any
        (fun q => containsSubstr (pyLower message) q)) then
    ⟨ContextNeedType.RECENT_ONLY, "Câu hỏi trong conversation đang diễn ra", [], 0.75⟩
  else if hasImplicitReference message ∧ initialResult.type = ContextNeedType.NONE then
    ⟨ContextNeedType.RECENT_ONLY, "Có reference ngầm định", [], 0.8⟩
  else initialResult

/-- Model of `RouterAgent._smart_llm_analysis`.  The remote completion is
abstracted as an oracle: `some (t, c)` is a response successfully parsed to
category `t` and confidence `c`; `none` is any failure (timeout, malformed
output), which yields the RECENT_ONLY/0.5 fallback. -/
def smartLlmAnalysis (llmResp : Option (ContextNeedType × ℚ)) (message : String) : ContextNeed :=
  match llmResp with
  | some (t, c) =>
    ⟨t, "LLM edge case analysis",
     if t = ContextNeedType.SMART_RETRIEVAL then routerExtractKeywords message else [], c⟩
  | none => ⟨ContextNeedType.RECENT_ONLY, "LLM analysis fallback", [], 0.5⟩

/-- The confidence threshold `self.confidence_threshold` of `RouterAgent`. -/
def confidenceThreshold : ℚ := 0.8

/-- Model of `RouterAgent.analyze_context_need`: three escalating levels.
`enableLlmAnalysis` is the constructor flag, `llmResp` the remote-completion
oracle of level 3. -/
def analyzeContextNeed (enableLlmAnalysis : Bool) (llmResp : Option (ContextNeedType × ℚ))
    (message : String) (recentMessages : List RecentMsg) : ContextNeed :=
  let patternResult := enhancedPatternAnalysis message recentMessages
  if confidenceThreshold ≤ patternResult.confidence then patternResult
  else if recentMessages ≠ [] ∧
          confidenceThreshold ≤ (analyzeWithContext message recentMessages patternResult).confidence then
    analyzeWithContext message recentMessages patternResult
  else if enableLlmAnalysis ∧ patternResult.confidence < 0.6 then
    let llmResult := smartLlmAnalysis llmResp message
    if patternResult.confidence < llmResult.confidence then llmResult else patternResult
  else patternResult

/-! ## Context quality analyzer (`app/agents/context_quality_analyzer.py`)

Messages carry a role, content and a timestamp (modelled as rational epoch
seconds); `datetime.now()` is passed explicitly as `now`. -/

/-- Conversation message (`app/agents/context_manager.py`, `Message`); the
`id`, `session_id` and `user_id` fields play no role in quality analysis. -/
structure Message where
  role : String
  content : String
  timestamp : ℚ
deriving DecidableEq, Repr

/-- Assembled context package (`context_manager.py`, `ContextPackage`). -/
structure ContextPackage where
  recent : List Message
  summary : Option String
  relevant : List Message
  historical : List Message
  contextType : ContextNeedType
  totalTokensEstimate : ℕ
deriving DecidableEq, Repr

/-- Discrete quality tiers (`QualityScore`). -/
inductive QualityScore
  | EXCELLENT
  | GOOD
  | AVERAGE
  | POOR
  | VERY_POOR
deriving DecidableEq, Repr

/-- Quality metrics record (`ContextMetrics`).  `compressionRate` models the
source field `compression_ratio`. -/
structure ContextMetrics where
  relevanceScore : ℚ
  completenessScore : ℚ
  efficiencyScore : ℚ
  coherenceScore : ℚ
  freshnessScore : ℚ
  overallQuality : ℚ
  qualityLevel : QualityScore
  processingTime : ℚ
  tokenUsage : ℕ
  compressionRate : ℚ
  contextType : ContextNeedType
  messageCount : ℕ
  sessionLength : ℕ
  timestamp : ℚ
deriving DecidableEq, Repr

/-- Stop words of `ContextQualityAnalyzer._extract_keywords`. -/
def analyzerStopWords : List String :=
  [ "that", "this", "with", "from", "they", "been", "have", "their",
    "said", "each", "which", "does", "most", "some", "time", "very" ]

/-- Model of `ContextQualityAnalyzer._extract_keywords`: 4+-letter word
runs of the lowered text, stop-word filtered, first 10. -/
def analyzerExtractKeywords (text : String) : List String :=
  ((wordRuns 4 (pyLower text)).filter (fun w => !analyzerStopWords.contains w)).take 10

/-- Model of `ContextQualityAnalyzer._calculate_text_relevance`: fraction of
keywords occurring in the lowered text. -/
def calculateTextRelevance (text : String) (keywords : List String) : ℚ :=
  if text.data.isEmpty || keywords.isEmpty then 0
  else
    let matchCount := keywords.countP (fun k => containsSubstr (pyLower text) (pyLower k))
    (matchCount : ℚ) / (keywords.length : ℚ)

/-- Model of `ContextQualityAnalyzer._calculate_message_relevance`: mean
text relevance over a message list. -/
def calculateMessageRelevance (messages : List Message) (keywords : List String) : ℚ :=
  if messages.isEmpty || keywords.isEmpty then 0
  else
    (messages.map (fun m => calculateTextRelevance m.content keywords)).sum /
      (messages.length : ℚ)

/-- Model of `ContextQualityAnalyzer._calculate_relevance_score`: weighted
keyword overlap over the present context sources, renormalized by the total
weight of the present sources.  The accumulating pair is
`(score, total_weight)`. -/
def calculateRelevanceScore (pkg : ContextPackage) (userMessage : String) : ℚ :=
  let userKeywords := analyzerExtractKeywords userMessage
  if userKeywords.isEmpty then 0.5
  else
    let acc : ℚ × ℚ := (0, 0)
    let acc :=
      if pkg.recent ≠ [] then
        (acc.1 + calculateMessageRelevance pkg.recent userKeywords * 0.4, acc.2 + 0.4)
      else acc
    let acc :=
      if pkg.relevant ≠ [] then
        (acc.1 + calculateMessageRelevance pkg.relevant userKeywords * 0.35, acc.2 + 0.35)
      else acc
    let acc :=
      if optStrTruthy pkg.summary then
        (acc.1 + calculateTextRelevance (pkg.summary.getD "") userKeywords * 0.15,
         acc.2 + 0.15)
      else acc
    let acc :=
      if pkg.historical ≠ [] then
        (acc.1 + calculateMessageRelevance (lastN 5 pkg.historical) userKeywords * 0.1,
         acc.2 + 0.1)
      else acc
    if 0 < acc.2 then acc.1 / acc.2 else 0.5

/-- Standalone-message patterns of `ContextQualityAnalyzer._needs_context`. -/
def standalonePatterns : List String :=
  [ "xin chào", "hello", "hi", "what is", "define", "explain",
    "how to", "tutorial", "guide" ]

/-- Model of `ContextQualityAnalyzer._needs_context`. -/
def needsContext (message : String) : Bool :=
  !(standalonePatterns.any (fun p => containsSubstr (pyLower message) p))

/-- Model of `ContextQualityAnalyzer._calculate_completeness_score`. -/
def calculateCompletenessScore (pkg : ContextPackage) (userMessage : String) : ℚ :=
  let score : ℚ :=
    match pkg.contextType with
    | ContextNeedType.NONE => if !(needsContext userMessage) then 1.0 else 0.3
    | ContextNeedType.RECENT_ONLY =>
      if 3 ≤ pkg.recent.length then 0.8
      else if 1 ≤ pkg.recent.length then 0.6
      else 0.2
    | ContextNeedType.SMART_RETRIEVAL =>
      (if pkg.recent ≠ [] then (0.4 : ℚ) else 0) +
      (if pkg.relevant ≠ [] then (0.6 : ℚ) else 0)
    | ContextNeedType.FULL_CONTEXT =>
      (if pkg.recent ≠ [] then (0.3 : ℚ) else 0) +
      (if optStrTruthy pkg.summary then (0.3 : ℚ) else 0) +
      (if pkg.relevant ≠ [] then (0.2 : ℚ) else 0) +
      (if pkg.historical ≠ [] then (0.2 : ℚ) else 0)
  pyMin score 1.0

/-- Ideal token ranges of `_calculate_efficiency_score`; the dict covers all
four categories, so the `(0, 1500)` fallback of `.get` is unreachable. -/
def idealTokenRange : ContextNeedType → ℕ × ℕ
  | ContextNeedType.NONE => (0, 50)
  | ContextNeedType.RECENT_ONLY => (100, 400)
  | ContextNeedType.SMART_RETRIEVAL => (300, 800)
  | ContextNeedType.FULL_CONTEXT => (800, 1500)

/-- Model of `ContextQualityAnalyzer._calculate_efficiency_score`. -/
def calculateEfficiencyScore (pkg : ContextPackage) : ℚ :=
  let totalTokens := pkg.totalTokensEstimate
  let idealMin := (idealTokenRange pkg.contextType).1
  let idealMax := (idealTokenRange pkg.contextType).2
  if totalTokens ≤ idealMax ∧ idealMin ≤ totalTokens then 1.0
  else if totalTokens < idealMin then
    0.7 + 0.3 * ((totalTokens : ℚ) / (idealMin : ℚ))
  else
    let overflow := totalTokens - idealMax
    let penalty := pyMin ((overflow : ℚ) / (idealMax : ℚ)) 0.7
    1.0 - penalty

/-- Model of `ContextQualityAnalyzer._check_temporal_coherence`: fraction of
adjacent pairs in non-decreasing timestamp order (`Message` always carries a
timestamp, and `datetime` objects are truthy, so every pair is compared). -/
def checkTemporalCoherence (messages : List Message) : ℚ :=
  if messages.length ≤ 1 then 1.0
  else
    let orderedCount := (messages.zip messages.tail).countP
      (fun p => p.1.timestamp ≤ p.2.timestamp)
    let totalPairs := messages.length - 1
    if 0 < totalPairs then (orderedCount : ℚ) / (totalPairs : ℚ) else 1.0

/-- Jaccard similarity values of adjacent message pairs whose keyword sets
are not both empty (`_check_topical_coherence` inner loop; Python sets are
modelled by first-occurrence deduplicated lists). -/
def topicalPairScores (messages : List Message) : List ℚ :=
  (messages.zip messages.tail).filterMap (fun p =>
    let keywords1 := dedupKeepFirst (analyzerExtractKeywords p.1.content) []
    let keywords2 := dedupKeepFirst (analyzerExtractKeywords p.2.content) []
    if keywords1 ≠ [] ∨ keywords2 ≠ [] then
      let overlap := (keywords1.filter (fun w => keywords2.contains w)).length
      let total := (keywords1 ++ keywords2.filter (fun w => !keywords1.contains w)).length
      some (if 0 < total then (overlap : ℚ) / (total : ℚ) else 0)
    else none)

/-- Model of `ContextQualityAnalyzer._check_topical_coherence`. -/
def checkTopicalCoherence (messages : List Message) : ℚ :=
  if messages.length ≤ 1 then 1.0
  else
    let allKeywords := (messages.map (fun m => analyzerExtractKeywords m.content)).flatten
    if allKeywords.isEmpty then 0.5
    else
      let coherenceScores := topicalPairScores messages
      if coherenceScores ≠ [] then coherenceScores.sum / (coherenceScores.length : ℚ)
      else 0.5

/-- Model of `ContextQualityAnalyzer._check_role_coherence`: fraction of
adjacent pairs that change speaker. -/
def checkRoleCoherence (messages : List Message) : ℚ :=
  if messages.length ≤ 1 then 1.0
  else
    let alternations := (messages.zip messages.tail).countP (fun p => p.1.role ≠ p.2.role)
    let totalTransitions := messages.length - 1
    if 0 < totalTransitions then (alternations : ℚ) / (totalTransitions : ℚ) else 1.0

/-- Model of `ContextQualityAnalyzer._calculate_coherence_score`. -/
def calculateCoherenceScore (pkg : ContextPackage) : ℚ :=
  if pkg.recent = [] then 1.0
  else
    checkTemporalCoherence pkg.recent * 0.4 +
    checkTopicalCoherence pkg.recent * 0.4 +
    checkRoleCoherence pkg.recent * 0.2

/-- Step decay of `_calculate_freshness_score` over the age in hours. -/
def freshnessDecay (ageHours : ℚ) : ℚ :=
  if ageHours ≤ 1 then 1.0
  else if ageHours ≤ 24 then 0.8
  else if ageHours ≤ 168 then 0.6
  else 0.3

/-- Model of `ContextQualityAnalyzer._calculate_freshness_score`.  Every
`Message` carries a (truthy) timestamp, so each recent message contributes
weight 1; the `total_weight == 0` fallback 0.8 is kept for fidelity. -/
def calculateFreshnessScore (now : ℚ) (pkg : ContextPackage) : ℚ :=
  if pkg.recent = [] then 1.0
  else
    let vals := pkg.recent.map (fun m => freshnessDecay ((now - m.timestamp) / 3600))
    if vals.length = 0 then 0.8
    else vals.sum / (vals.length : ℚ)

/-- Model of `ContextQualityAnalyzer._get_quality_level`: first threshold
(in descending dict order) below the score wins; the fall-through returns
VERY_POOR. -/
def getQualityLevel (overallQuality : ℚ) : QualityScore :=
  if 0.9 ≤ overallQuality then QualityScore.EXCELLENT
  else if 0.7 ≤ overallQuality then QualityScore.GOOD
  else if 0.5 ≤ overallQuality then QualityScore.AVERAGE
  else if 0.3 ≤ overallQuality then QualityScore.POOR
  else if 0 ≤ overallQuality then QualityScore.VERY_POOR
  else QualityScore.VERY_POOR

/-- Model of `ContextQualityAnalyzer._calculate_compression_ratio`. -/
def calculateCompressionRate (pkg : ContextPackage) : ℚ :=
  let messageCount := pkg.recent.length + pkg.relevant.length + pkg.historical.length
  if messageCount = 0 then 0
  else
    let estimatedOriginal := messageCount * 200
    let currentSize :=
      (((pkg.recent ++ pkg.relevant) ++ pkg.historical).map
        (fun m => m.content.length)).sum
    if estimatedOriginal = 0 then 0
    else (currentSize : ℚ) / (estimatedOriginal : ℚ)

/-- Model of the success path of
`ContextQualityAnalyzer.analyze_context_quality`: the five sub-scores, their
fixed-weight combination (weights 0.3/0.25/0.2/0.15/0.1 from
`quality_weights`), the derived tier, and the contextual fields. -/
def analyzeContextQuality (pkg : ContextPackage) (userMessage : String)
    (processingTime : ℚ) (now : ℚ) : ContextMetrics :=
  let relevanceScore := calculateRelevanceScore pkg userMessage
  let completenessScore := calculateCompletenessScore pkg userMessage
  let efficiencyScore := calculateEfficiencyScore pkg
  let coherenceScore := calculateCoherenceScore pkg
  let freshnessScore := calculateFreshnessScore now pkg
  let overallQuality :=
    relevanceScore * 0.3 + completenessScore * 0.25 + efficiencyScore * 0.2 +
    coherenceScore * 0.15 + freshnessScore * 0.1
  ⟨relevanceScore, completenessScore, efficiencyScore, coherenceScore, freshnessScore,
   overallQuality, getQualityLevel overallQuality, processingTime,
   pkg.totalTokensEstimate, calculateCompressionRate pkg, pkg.contextType,
   pkg.recent.length + pkg.relevant.length + pkg.historical.length,
   pkg.recent.length + pkg.historical.length, now⟩

/-- Model of `ContextQualityAnalyzer._create_default_metrics` (the record
returned when quality analysis raises). -/
def createDefaultMetrics (pkg : ContextPackage) (processingTime : ℚ) (now : ℚ) :
    ContextMetrics :=
  ⟨0.5, 0.5, 0.5, 0.5, 0.5, 0.5, QualityScore.AVERAGE, processingTime,
   pkg.totalTokensEstimate, 0.5, pkg.contextType, 0, 0, now⟩

/-- Model of `analyze_context_quality` with its `try/except` wrapper:
`failed` abstracts "some exception was raised while computing the quality
metrics", in which case the neutral default record is returned instead of
propagating. -/
def analyzeContextQualityRun (failed : Bool) (pkg : ContextPackage)
    (userMessage : String) (processingTime : ℚ) (now : ℚ) : ContextMetrics :=
  if failed then createDefaultMetrics pkg processingTime now
  else analyzeContextQuality pkg userMessage processingTime now

/-! ## Performance monitor (`app/agents/performance_monitor.py`) -/

/-- Alert severities (`AlertLevel`). -/
inductive AlertLevel
  | CRITICAL
  | HIGH
  | MEDIUM
  | LOW
  | INFO
deriving DecidableEq, Repr

/-- Performance alert (`PerformanceAlert`).  The interpolated numeric values
of the human-readable `message` strings are elided. -/
structure PerformanceAlert where
  level : AlertLevel
  type : String
  message : String
  metricValue : ℚ
  threshold : ℚ
  timestamp : ℚ
  recommendations : List String
deriving DecidableEq, Repr

/-- Alert thresholds table (`self.alert_thresholds`). -/
structure AlertThresholds where
  responseTimeP95 : ℚ
  responseTimeP99 : ℚ
  errorRate : ℚ
  cpuUsage : ℚ
  memoryUsage : ℚ
  contextQuality : ℚ
  tokenEfficiency : ℚ
  routerAccuracy : ℚ
deriving DecidableEq, Repr

/-- Default alert thresholds of `PerformanceMonitor.__init__`. -/
def defaultAlertThresholds : AlertThresholds :=
  ⟨5.0, 10.0, 0.05, 80.0, 85.0, 0.6, 0.5, 0.7⟩

/-- Model of `deque(maxlen=m).append`: append and evict from the front past
the capacity. -/
def dequeAppend (maxlen : ℕ) (dq : List α) (x : α) : List α := lastN maxlen (dq ++ [x])

/-- Increment of a `defaultdict(int)` counter. -/
def bumpCount : List (String × ℕ) → String → List (String × ℕ)
  | [], k => [(k, 1)]
  | (k', n) :: rest, k =>
    if k' = k then (k', n + 1) :: rest else (k', n) :: bumpCount rest k

/-- The `.value` string of a context-need category. -/
def contextTypeName : ContextNeedType → String
  | ContextNeedType.NONE => "NONE"
  | ContextNeedType.RECENT_ONLY => "RECENT_ONLY"
  | ContextNeedType.SMART_RETRIEVAL => "SMART_RETRIEVAL"
  | ContextNeedType.FULL_CONTEXT => "FULL_CONTEXT"

/-- Monitor state touched by `record_request` (the rolling deques, request
counters, usage tables and the threshold configuration). -/
structure MonitorState where
  responseTimes : List ℚ
  contextMetricsLog : List ContextMetrics
  alerts : List PerformanceAlert
  requestCount : ℕ
  errorCount : ℕ
  lastMinuteRequests : List ℚ
  modelUsage : List (String × ℕ)
  contextTypeUsage : List (String × ℕ)
  alertThresholds : AlertThresholds

/-- Monitor state right after `PerformanceMonitor.__init__` with the default
thresholds. -/
def initialMonitorState : MonitorState :=
  ⟨[], [], [], 0, 0, [], [], [], defaultAlertThresholds⟩

/-- Critical response-time alert of `_check_real_time_alerts`. -/
def responseTimeAlerts (thr : AlertThresholds) (responseTime now : ℚ) :
    List PerformanceAlert :=
  if thr.responseTimeP99 < responseTime then
    [⟨AlertLevel.CRITICAL, "response_time", "Extremely slow response",
      responseTime, thr.responseTimeP99, now,
      [ "Check model availability and latency",
        "Verify context size and complexity",
        "Monitor system resources" ]⟩]
  else []

/-- Context-quality alert of `_check_real_time_alerts`. -/
def qualityAlerts (thr : AlertThresholds) (contextMetrics : Option ContextMetrics)
    (now : ℚ) : List PerformanceAlert :=
  match contextMetrics with
  | some m =>
    if m.overallQuality < thr.contextQuality then
      [⟨AlertLevel.HIGH, "context_quality", "Low context quality",
        m.overallQuality, thr.contextQuality, now,
        [ "Review context building strategy",
          "Check router agent accuracy",
          "Validate context relevance" ]⟩]
    else []
  | none => []

/-- CPU/memory alerts of `_check_real_time_alerts`; `none` models a failing
`psutil` probe, whose exception is swallowed at debug level. -/
def resourceAlerts (thr : AlertThresholds) (res : Option (ℚ × ℚ)) (now : ℚ) :
    List PerformanceAlert :=
  match res with
  | none => []
  | some (cpu, mem) =>
    (if thr.cpuUsage < cpu then
      [⟨AlertLevel.HIGH, "cpu_usage", "High CPU usage", cpu, thr.cpuUsage, now,
        [ "Consider scaling horizontally",
          "Optimize context processing",
          "Check for inefficient operations" ]⟩]
     else []) ++
    (if thr.memoryUsage < mem then
      [⟨AlertLevel.HIGH, "memory_usage", "High memory usage", mem, thr.memoryUsage, now,
        [ "Clear context history cache",
          "Optimize memory usage patterns",
          "Consider increasing memory limits" ]⟩]
     else [])

/-- Model of `PerformanceMonitor._check_real_time_alerts`: the alerts built
in source order. -/
def checkRealTimeAlerts (thr : AlertThresholds) (responseTime : ℚ)
    (contextMetrics : Option ContextMetrics) (res : Option (ℚ × ℚ)) (now : ℚ) :
    List PerformanceAlert :=
  responseTimeAlerts thr responseTime now ++ qualityAlerts thr contextMetrics now ++
    resourceAlerts thr res now

/-- Model of `PerformanceMonitor.record_request`: update counters, deques and
usage tables, then run the real-time alert check, appending each new alert to
the capacity-100 alert deque. -/
def recordRequest (s : MonitorState) (responseTime : ℚ) (modelUsed : String)
    (contextMetrics : Option ContextMetrics) (error : Bool) (res : Option (ℚ × ℚ))
    (now : ℚ) : MonitorState :=
  ⟨dequeAppend 1000 s.responseTimes responseTime,
   (match contextMetrics with
    | some m => dequeAppend 1000 s.contextMetricsLog m
    | none => s.contextMetricsLog),
   (checkRealTimeAlerts s.alertThresholds responseTime contextMetrics res now).foldl
     (dequeAppend 100) s.alerts,
   s.requestCount + 1,
   s.errorCount + (if error then 1 else 0),
   dequeAppend 60 s.lastMinuteRequests now,
   bumpCount s.modelUsage modelUsed,
   (match contextMetrics with
    | some m => bumpCount s.contextTypeUsage (contextTypeName m.contextType)
    | none => s.contextTypeUsage),
   s.alertThresholds⟩

/-- Model of `PerformanceMonitor.get_recent_alerts`: alerts of the last
`hoursBack` hours. -/
def getRecentAlerts (s : MonitorState) (now : ℚ) (hoursBack : ℕ) :
    List PerformanceAlert :=
  s.alerts.filter (fun a => now - (hoursBack : ℚ) * 3600 ≤ a.timestamp)

/-! ## Content compressor (`app/agents/content_compressor.py`) -/

/-- Content categories for adaptive compression (`ContentType`). -/
inductive ContentType
  | CODE_EXPLANATION
  | CONCEPT_QUESTION
  | CALCULATION_PROBLEM
  | LANGUAGE_PRACTICE
  | CASE_STUDY
  | HISTORICAL_ANALYSIS
  | CREATIVE_WORK
  | TROUBLESHOOTING
  | GENERAL_DISCUSSION
deriving DecidableEq, Repr

/-- The `.value` string of a content category. -/
def contentTypeValue : ContentType → String
  | ContentType.CODE_EXPLANATION => "CODE_EXPLANATION"
  | ContentType.CONCEPT_QUESTION => "CONCEPT_QUESTION"
  | ContentType.CALCULATION_PROBLEM => "CALCULATION_PROBLEM"
  | ContentType.LANGUAGE_PRACTICE => "LANGUAGE_PRACTICE"
  | ContentType.CASE_STUDY => "CASE_STUDY"
  | ContentType.HISTORICAL_ANALYSIS => "HISTORICAL_ANALYSIS"
  | ContentType.CREATIVE_WORK => "CREATIVE_WORK"
  | ContentType.TROUBLESHOOTING => "TROUBLESHOOTING"
  | ContentType.GENERAL_DISCUSSION => "GENERAL_DISCUSSION"

/-- Values stored in the heterogeneous compression-metadata dict. -/
inductive MetaVal
  | natV (n : ℕ)
  | strV (s : String)
  | ratV (q : ℚ)
deriving DecidableEq, Repr

/-- Python dict update: replace in place if the key exists, append
otherwise. -/
def dictInsert : List (String × MetaVal) → String → MetaVal → List (String × MetaVal)
  | [], k, v => [(k, v)]
  | (k', v') :: rest, k, v =>
    if k' = k then (k, v) :: rest else (k', v') :: dictInsert rest k v

/-- First `n` characters of a string (Python `s[:n]` for `n ≥ 0`). -/
def takeChars (n : ℕ) (s : String) : String := ⟨s.data.take n⟩

/-- Model of Python `s[:k]` for an arbitrary integer bound: a negative `k`
cuts `|k|` characters from the end (clamped at zero). -/
def pySliceToInt (s : String) (k : Int) : String :=
  if 0 ≤ k then ⟨s.data.take k.toNat⟩
  else ⟨s.data.take (s.length - (-k).toNat)⟩

/-- Model of Python `s[-k:]` for a natural `k`; since `-0 == 0` in Python,
`k = 0` yields the whole string. -/
def pySliceFromNeg (s : String) (k : ℕ) : String :=
  if k = 0 then s else ⟨s.data.drop (s.length - k)⟩

/-- Model of Python `int(q)` (truncation toward zero) on a nonnegative
float, as a natural number. -/
def pyIntOfRat (q : ℚ) : ℕ := (q.num.tdiv (q.den : ℤ)).toNat

/-- Model of `'sep'.join(parts)`. -/
def joinWith (sep : String) : List String → String
  | [] => ""
  | [s] => s
  | s :: rest => s ++ sep ++ joinWith sep rest

/-- Existence of a match of `\d+\s*OP\s*\d+` (for an operator class `ops`)
at a position whose first character is a digit: the greedy digit/whitespace
runs are safe because neither an operator nor a digit can stand in for the
other. -/
def digitsOpDigitHere (ops : List Char) (l : List Char) : Bool :=
  let l1 := l.dropWhile Char.isDigit
  let l2 := l1.dropWhile isWsChar
  match l2 with
  | c :: l3 =>
    ops.contains c &&
      (match l3.dropWhile isWsChar with
       | d :: _ => d.isDigit
       | [] => false)
  | [] => false

/-- Model of `re.search(r'\d+\s*[OPS]\s*\d+', ·)` as a scan over all start
positions. -/
def hasDigitsOpDigits (ops : List Char) : List Char → Bool
  | [] => false
  | c :: rest => (c.isDigit && digitsOpDigitHere ops rest) || hasDigitsOpDigits ops rest

/-- Code markers of `_detect_content_type` (matched case-sensitively). -/
def codeMarkers : List String :=
  ["```", "function", "class", "import", "def", "const", "var"]

/-- Model of `ContentCompressor._detect_content_type`: priority-ordered
keyword/pattern sweep. -/
def detectContentType (content : String) : ContentType :=
  let contentLower := pyLower content
  if codeMarkers.any (fun p => containsSubstr content p) then
    ContentType.CODE_EXPLANATION
  else if hasDigitsOpDigits ['+', '-', '*', '/', '='] contentLower.data ||
          ["equation", "formula", "calculate", "solve"].any
            (fun w => containsSubstr contentLower w) then
    ContentType.CALCULATION_PROBLEM
  else if ["grammar", "vocabulary", "pronunciation", "translate"].any
            (fun w => containsSubstr contentLower w) then
    ContentType.LANGUAGE_PRACTICE
  else if ["case study", "example", "scenario", "real world"].any
            (fun w => containsSubstr contentLower w) then
    ContentType.CASE_STUDY
  else if ["history", "historical", "timeline", "century", "period"].any
            (fun w => containsSubstr contentLower w) then
    ContentType.HISTORICAL_ANALYSIS
  else if ["creative", "art", "design", "poem", "story"].any
            (fun w => containsSubstr contentLower w) then
    ContentType.CREATIVE_WORK
  else if ["error", "bug", "issue", "problem", "fix", "debug"].any
            (fun w => containsSubstr contentLower w) then
    ContentType.TROUBLESHOOTING
  else if containsSubstr content "?" ||
          ["what", "how", "why", "when", "where"].any
            (fun w => containsSubstr contentLower w) then
    ContentType.CONCEPT_QUESTION
  else
    ContentType.GENERAL_DISCUSSION

/-- Sentence split of `_split_into_sentences`: split at whitespace runs
that immediately follow `.`, `!` or `?` (model of
`re.split(r'(?<=[.!?])\s+', text)`); `prev` is the preceding character. -/
def sentenceSplitChars (fuel : ℕ) (cs : List Char) (cur : List Char) (prev : Option Char) :
    List (List Char) :=
  match fuel, cs with
  | _, [] => [cur.reverse]
  | 0, _ => [cur.reverse ++ cs]
  | fuel + 1, c :: rest =>
    if isWsChar c ∧ (prev = some '.' ∨ prev = some '!' ∨ prev = some '?') then
      cur.reverse :: sentenceSplitChars fuel (rest.dropWhile isWsChar) [] none
    else
      sentenceSplitChars fuel rest (c :: cur) (some c)

/-- Model of `ContentCompressor._split_into_sentences`: regex split, strip,
drop sentences of length ≤ 10. -/
def splitIntoSentences (text : String) : List String :=
  let raw := sentenceSplitChars (text.data.length + 1) text.data [] none
  (raw.map (fun cs => (⟨stripChars cs⟩ : String))).filter (fun s => 10 < s.length)

/-- Importance keywords of `_score_sentence_importance`. -/
def importantScorePatterns : List String :=
  [ "important", "key", "main", "primary", "significant",
    "however", "but", "therefore", "because", "result",
    "first", "second", "finally", "conclusion",
    ":", "-", "•" ]

/-- Model of `ContentCompressor._score_sentence_importance`. -/
def scoreSentenceImportance (sentence : String) (position total : ℕ) : ℚ :=
  let score : ℚ := 0
  let score :=
    if position = 0 then score + 0.3
    else if position = total - 1 then score + 0.2
    else if position < 3 then score + 0.1
    else score
  let score :=
    if 50 ≤ sentence.length ∧ sentence.length ≤ 150 then score + 0.2
    else if sentence.length < 30 then score - 0.1
    else score
  let matched := importantScorePatterns.countP
    (fun p => containsSubstr (pyLower sentence) p)
  let score := score + (matched : ℚ) * 0.1
  let score := if containsSubstr sentence "?" then score + 0.15 else score
  let score := if sentence.data.any Char.isDigit then score + 0.1 else score
  score

/-- Stable insertion of a scored sentence into a descending list: an
element moves past another only on a strictly greater score (model of the
stable `list.sort(reverse=True, key=score)`). -/
def insertDesc (x : ℚ × String) : List (ℚ × String) → List (ℚ × String)
  | [] => [x]
  | y :: rest => if x.1 < y.1 then y :: insertDesc x rest else x :: y :: rest

/-- Stable descending sort by score. -/
def sortDescStable : List (ℚ × String) → List (ℚ × String)
  | [] => []
  | x :: rest => insertDesc x (sortDescStable rest)

/-- Selection loop of `_compress_text_smart`: take sentences
highest-score-first while they fit; below 80% occupancy a final partial
sentence of more than 50 characters may be added before stopping. -/
def selectSentencesLoop (maxChars : ℕ) :
    List (ℚ × String) → ℕ → List String → List String
  | [], _, selected => selected
  | (_, sentence) :: rest, currentChars, selected =>
    if currentChars + sentence.length ≤ maxChars then
      selectSentencesLoop maxChars rest (currentChars + sentence.length)
        (selected ++ [sentence])
    else if (currentChars : ℚ) < (maxChars : ℚ) * 0.8 then
      let remaining := maxChars - currentChars
      if 50 < remaining then selected ++ [takeChars remaining sentence ++ "..."]
      else selected
    else
      selectSentencesLoop maxChars rest currentChars selected

/-- Model of `ContentCompressor._compress_text_smart`: score sentences,
select by importance, then re-emit the selected sentences in original
document order. -/
def compressTextSmart (text : String) (maxChars : ℕ) : String :=
  if text.length ≤ maxChars then text
  else
    let sentences := splitIntoSentences text
    if sentences.isEmpty then takeChars maxChars text ++ "..."
    else
      let total := sentences.length
      let scored := sentences.enum.map
        (fun p => (scoreSentenceImportance p.2 p.1 total, p.2))
      let selected := selectSentencesLoop maxChars (sortDescStable scored) 0 []
      let result := sentences.filter (fun s => selected.contains s)
      joinWith " " result

/-- Model of `str.rfind(' ', 0, endIdx)`: highest index of a space before
`endIdx`, or `-1`. -/
def pyRfindSpace (s : String) (endIdx : ℕ) : Int :=
  match (((s.data.take endIdx).enum.filter (fun p => p.2 = ' ')).map
      (fun p => p.1)).getLast? with
  | some i => (i : Int)
  | none => -1

/-- Model of `ContentCompressor._compress_sentence`: cut at a word boundary
when one lies beyond 70% of the budget, else hard-truncate. -/
def compressSentence (sentence : String) (maxLength : ℕ) : String :=
  if sentence.length ≤ maxLength then sentence
  else if 20 < maxLength then
    let cutPoint := pyRfindSpace sentence (maxLength - 3)
    if (maxLength : ℚ) * 0.7 < (cutPoint : ℚ) then
      pySliceToInt sentence cutPoint ++ "..."
    else pySliceToInt sentence ((maxLength : Int) - 3) ++ "..."
  else pySliceToInt sentence ((maxLength : Int) - 3) ++ "..."

/-- Earliest start index of `pat` in `cs`, if any. -/
def findSubIdx : List Char → List Char → Option ℕ
  | [], pat => if pat.isEmpty then some 0 else none
  | c :: rest, pat =>
    if charsStartWith (c :: rest) pat then some 0
    else (findSubIdx rest pat).map (· + 1)

/-- The backtick character. -/
def btChar : Char := Char.ofNat 96

/-- Match of the code-span regex ` ```[\s\S]*?``` ` or ` `[^`]+` ` anchored
at the current position, returning the span and the remainder. -/
def matchCodeSpanAt (cs : List Char) : Option (List Char × List Char) :=
  if charsStartWith cs [btChar, btChar, btChar] then
    let rest := cs.drop 3
    match findSubIdx rest [btChar, btChar, btChar] with
    | some k =>
      some (([btChar, btChar, btChar] ++ rest.take k) ++ [btChar, btChar, btChar],
            rest.drop (k + 3))
    | none => none
  else
    match cs with
    | c :: rest =>
      if c = btChar then
        let inner := rest.takeWhile (fun d => d ≠ btChar)
        if inner.isEmpty then none
        else
          match rest.drop inner.length with
          | d :: after => if d = btChar then some ((btChar :: inner) ++ [btChar], after) else none
          | [] => none
      else none
    | [] => none

/-- Left-to-right non-overlapping scan of the code-span regex, producing the
interleaved `re.split` text parts and `re.findall` code blocks. -/
def codeSpanScan (fuel : ℕ) (cs : List Char) (curText : List Char) :
    List (List Char) × List (List Char) :=
  match fuel with
  | 0 => ([curText.reverse ++ cs], [])
  | fuel + 1 =>
    match cs with
    | [] => ([curText.reverse], [])
    | c :: rest =>
      match matchCodeSpanAt cs with
      | some (span, after) =>
        let scanned := codeSpanScan fuel after []
        (curText.reverse :: scanned.1, span :: scanned.2)
      | none => codeSpanScan fuel rest (c :: curText)

/-- Interleaving loop of `_compress_code_explanation` over text parts and
code blocks, tracking `(parts, text_compressed, code_blocks_preserved)`. -/
def codeExpLoop (maxTokens maxChars : ℕ) :
    List (List Char) → List (List Char) → ℕ → List String → ℕ → ℕ →
    List String × ℕ × ℕ
  | [], _, _, parts, tc, cbp => (parts, tc, cbp)
  | t :: ts, codes, currentTokens, parts, tc, cbp =>
    if maxTokens ≤ currentTokens then (parts, tc, cbp)
    else
      let step :=
        if !(stripChars t).isEmpty then
          let compressedText := compressTextSmart ⟨t⟩ ((maxChars - currentTokens * 4) / 2)
          (parts ++ [compressedText], currentTokens + compressedText.length / 4, tc + 1)
        else (parts, currentTokens, tc)
      match codes with
      | code :: cs =>
        if step.2.1 + code.length / 4 ≤ maxTokens then
          codeExpLoop maxTokens maxChars ts cs (step.2.1 + code.length / 4)
            (step.1 ++ [(⟨code⟩ : String)]) step.2.2 (cbp + 1)
        else
          let remainingChars := (maxChars : Int) - (step.2.1 : Int) * 4
          (step.1 ++ [pySliceToInt ⟨code⟩ remainingChars ++ "...\n```"], step.2.2, cbp)
      | [] => codeExpLoop maxTokens maxChars ts [] step.2.1 step.1 step.2.2 cbp

/-- Model of `ContentCompressor._compress_code_explanation`. -/
def compressCodeExplanation (content : String) (maxTokens : ℕ) :
    String × List (String × MetaVal) :=
  let scanned := codeSpanScan (content.data.length + 1) content.data []
  let maxChars := maxTokens * 4
  let res := codeExpLoop maxTokens maxChars scanned.1 scanned.2 0 [] 0 0
  (joinWith "\n" res.1,
   [("code_blocks_preserved", MetaVal.natV res.2.2), ("text_compressed", MetaVal.natV res.2.1)])

/-- Definition markers of `_compress_concept_question`. -/
def definitionPatterns : List String := ["is", "are", "means", "defined as", "refers to", ":"]

/-- Example markers of `_compress_concept_question`. -/
def examplePatterns : List String := ["example", "for instance", "such as", "e.g.", "like"]

/-- Emphasis markers of `_compress_concept_question`. -/
def importantPatterns : List String := ["important", "key", "note", "remember", "crucial"]

/-- First pass of `_compress_concept_question`: keep definition / example /
emphasis / list lines while the budget lasts; result is
`(key_lines, current_chars, definitions_kept, examples_kept)`. -/
def conceptFirstPass (maxChars : ℕ) :
    List String → ℕ → List String → ℕ → ℕ → List String × ℕ × ℕ × ℕ
  | [], currentChars, keyLines, dk, ek => (keyLines, currentChars, dk, ek)
  | line :: rest, currentChars, keyLines, dk, ek =>
    if maxChars ≤ currentChars then (keyLines, currentChars, dk, ek)
    else
      let lineLower := pyStrip (pyLower line)
      if lineLower.data.isEmpty then conceptFirstPass maxChars rest currentChars keyLines dk ek
      else
        let isDefinition := definitionPatterns.any (fun p => containsSubstr lineLower p)
        let isExample := examplePatterns.any (fun p => containsSubstr lineLower p)
        let isImportant := importantPatterns.any (fun p => containsSubstr lineLower p)
        let isBullet := ["•", "-", "*", "1", "2", "3"].any
          (fun p => charsStartWith lineLower.data p.data)
        if isDefinition || isExample || isImportant || isBullet then
          if currentChars + line.length ≤ maxChars then
            conceptFirstPass maxChars rest (currentChars + line.length) (keyLines ++ [line])
              (if isDefinition then dk + 1 else dk)
              (if isDefinition then ek else if isExample then ek + 1 else ek)
          else
            let remaining := maxChars - currentChars
            (keyLines ++ [takeChars remaining line ++ "..."], currentChars, dk, ek)
        else conceptFirstPass maxChars rest currentChars keyLines dk ek

/-- Back-fill pass of `_compress_concept_question`: add compressed general
lines while under 90% of the budget. -/
def conceptBackfill (maxChars : ℕ) : List String → List String → ℕ → List String × ℕ
  | [], keyLines, currentChars => (keyLines, currentChars)
  | line :: rest, keyLines, currentChars =>
    if !(keyLines.contains line) && !(stripChars line.data).isEmpty then
      let compressed := compressSentence line ((maxChars - currentChars) / 2)
      if compressed.data.isEmpty then conceptBackfill maxChars rest keyLines currentChars
      else
        let keyLines := keyLines ++ [compressed]
        let currentChars := currentChars + compressed.length
        if (maxChars : ℚ) * 0.9 ≤ (currentChars : ℚ) then (keyLines, currentChars)
        else conceptBackfill maxChars rest keyLines currentChars
    else conceptBackfill maxChars rest keyLines currentChars

/-- Model of `ContentCompressor._compress_concept_question`. -/
def compressConceptQuestion (content : String) (maxTokens : ℕ) :
    String × List (String × MetaVal) :=
  let lines := pySplitLines content
  let maxChars := maxTokens * 4
  let fp := conceptFirstPass maxChars lines 0 [] 0 0
  let keyLines := fp.1
  let currentChars := fp.2.1
  let filled :=
    if (currentChars : ℚ) < (maxChars : ℚ) * 0.7 ∧ keyLines.length < 3 then
      conceptBackfill maxChars lines keyLines currentChars
    else (keyLines, currentChars)
  (joinWith "\n" filled.1,
   [("definitions_kept", MetaVal.natV fp.2.2.1), ("examples_kept", MetaVal.natV fp.2.2.2)])

/-- Existence of a match of `[A-Za-z]\s*=` in a line. -/
def hasLetterThenEq : List Char → Bool
  | [] => false
  | c :: rest =>
    (c.isAlpha &&
      (match rest.dropWhile isWsChar with
       | '=' :: _ => true
       | _ => false)) || hasLetterThenEq rest

/-- Existence of a match of `=\s*[A-Za-z]` in a line. -/
def hasEqThenLetter : List Char → Bool
  | [] => false
  | c :: rest =>
    (c = '=' &&
      (match rest.dropWhile isWsChar with
       | d :: _ => d.isAlpha
       | [] => false)) || hasEqThenLetter rest

/-- Existence of a match of `=\s*\d+` in a line. -/
def hasEqThenDigit : List Char → Bool
  | [] => false
  | c :: rest =>
    (c = '=' &&
      (match rest.dropWhile isWsChar with
       | d :: _ => d.isDigit
       | [] => false)) || hasEqThenDigit rest

/-- Model of `re.search(formula_pattern, line)` of `_compress_calculation`:
`[A-Za-z]\s*=|=\s*[A-Za-z]|\d+\s*[+\-*/]\s*\d+`. -/
def formulaLine (line : String) : Bool :=
  hasLetterThenEq line.data || hasEqThenLetter line.data ||
    hasDigitsOpDigits ['+', '-', '*', '/'] line.data

/-- Model of `re.search(result_pattern, line.lower())` of
`_compress_calculation`: `=\s*\d+|result|answer|solution`. -/
def resultLine (line : String) : Bool :=
  let lineLower := pyLower line
  hasEqThenDigit lineLower.data ||
    ["result", "answer", "solution"].any (fun w => containsSubstr lineLower w)

/-- Line loop of `_compress_calculation`, tracking
`(lines, formulas_kept, results_kept)`. -/
def calcLoop (maxChars : ℕ) : List String → ℕ → List String → ℕ → ℕ →
    List String × ℕ × ℕ
  | [], _, acc, fk, rk => (acc, fk, rk)
  | line :: rest, currentChars, acc, fk, rk =>
    if maxChars ≤ currentChars then (acc, fk, rk)
    else if formulaLine line then
      if currentChars + line.length ≤ maxChars then
        calcLoop maxChars rest (currentChars + line.length) (acc ++ [line]) (fk + 1) rk
      else calcLoop maxChars rest currentChars acc fk rk
    else if resultLine line then
      if currentChars + line.length ≤ maxChars then
        calcLoop maxChars rest (currentChars + line.length) (acc ++ [line]) fk (rk + 1)
      else calcLoop maxChars rest currentChars acc fk rk
    else
      let compressed := compressSentence line 50
      if !compressed.data.isEmpty && currentChars + compressed.length ≤ maxChars then
        calcLoop maxChars rest (currentChars + compressed.length) (acc ++ [compressed]) fk rk
      else calcLoop maxChars rest currentChars acc fk rk

/-- Model of `ContentCompressor._compress_calculation`. -/
def compressCalculation (content : String) (maxTokens : ℕ) :
    String × List (String × MetaVal) :=
  let res := calcLoop (maxTokens * 4) (pySplitLines content) 0 [] 0 0
  (joinWith "\n" res.1,
   [("formulas_kept", MetaVal.natV res.2.1), ("results_kept", MetaVal.natV res.2.2)])

/-- Line loop of `_compress_language`, tracking
`(lines, phrases_kept, translations_kept)`. -/
def langLoop (maxChars : ℕ) : List String → ℕ → List String → ℕ → ℕ →
    List String × ℕ × ℕ
  | [], _, acc, pk, tk => (acc, pk, tk)
  | line :: rest, currentChars, acc, pk, tk =>
    if maxChars ≤ currentChars then (acc, pk, tk)
    else if containsSubstr line "\"" || containsSubstr line "\x27" then
      if currentChars + line.length ≤ maxChars then
        langLoop maxChars rest (currentChars + line.length) (acc ++ [line]) (pk + 1) tk
      else langLoop maxChars rest currentChars acc pk tk
    else if containsSubstr line "->" || containsSubstr line "→" then
      if currentChars + line.length ≤ maxChars then
        langLoop maxChars rest (currentChars + line.length) (acc ++ [line]) pk (tk + 1)
      else langLoop maxChars rest currentChars acc pk tk
    else
      let line := if 100 < line.length then takeChars 80 line ++ "..." else line
      if currentChars + line.length ≤ maxChars then
        langLoop maxChars rest (currentChars + line.length) (acc ++ [line]) pk tk
      else langLoop maxChars rest currentChars acc pk tk

/-- Model of `ContentCompressor._compress_language`. -/
def compressLanguage (content : String) (maxTokens : ℕ) :
    String × List (String × MetaVal) :=
  let res := langLoop (maxTokens * 4) (pySplitLines content) 0 [] 0 0
  (joinWith "\n" res.1,
   [("phrases_kept", MetaVal.natV res.2.1), ("translations_kept", MetaVal.natV res.2.2)])

/-- Model of `str.isupper()` (ASCII granularity): at least one cased
character and no lowercase cased character. -/
def pyIsUpper (s : String) : Bool :=
  s.data.any Char.isAlpha && s.data.all (fun c => !c.isAlpha || c.isUpper)

/-- Test for the final character of a line. -/
def charsEndWith (cs pat : List Char) : Bool := charsStartWith cs.reverse pat.reverse

/-- Header heuristic of `_extract_sections`: all-caps line, markdown
heading, or short colon-terminated line. -/
def isSectionHeader (line : String) : Bool :=
  !(stripChars line.data).isEmpty &&
    (pyIsUpper line || charsStartWith line.data ['#'] ||
      (charsEndWith line.data [':'] && line.length < 50))

/-- Strip the characters of `chs` from both ends (`str.strip(' #:')`). -/
def stripSetChars (chs : List Char) (cs : List Char) : List Char :=
  ((cs.dropWhile (fun c => chs.contains c)).reverse.dropWhile
    (fun c => chs.contains c)).reverse

/-- Ordered-dict update for string sections: replace in place, else
append. -/
def dictInsertStr : List (String × String) → String → String → List (String × String)
  | [], k, v => [(k, v)]
  | (k', v') :: rest, k, v =>
    if k' = k then (k, v) :: rest else (k', v') :: dictInsertStr rest k v

/-- Section accumulation loop of `_extract_sections`. -/
def extractSectionsLoop :
    List String → String → List String → List (String × String) → List (String × String)
  | [], currentSection, currentContent, sections =>
    if currentContent ≠ [] then
      dictInsertStr sections currentSection (joinWith "\n" currentContent)
    else sections
  | line :: rest, currentSection, currentContent, sections =>
    if isSectionHeader line then
      let sections :=
        if currentContent ≠ [] then
          dictInsertStr sections currentSection (joinWith "\n" currentContent)
        else sections
      extractSectionsLoop rest (⟨stripSetChars [' ', '#', ':'] line.data⟩ : String) [] sections
    else extractSectionsLoop rest currentSection (currentContent ++ [line]) sections

/-- Model of `ContentCompressor._extract_sections`. -/
def extractSections (content : String) : List (String × String) :=
  extractSectionsLoop (pySplitLines content) "Introduction" [] []

/-- Priority section names of `_compress_case_study`. -/
def prioritySections : List String :=
  ["problem", "challenge", "solution", "conclusion", "key", "result"]

/-- Priority pass of `_compress_case_study`, tracking
`(parts, current_chars, sections_kept)`. -/
def caseLoop1 (maxChars : ℕ) : List (String × String) → ℕ → List String → ℕ →
    List String × ℕ × ℕ
  | [], currentChars, parts, sk => (parts, currentChars, sk)
  | (name, sContent) :: rest, currentChars, parts, sk =>
    if maxChars ≤ currentChars then (parts, currentChars, sk)
    else if prioritySections.any (fun p => containsSubstr (pyLower name) p) then
      let compressedSection :=
        compressTextSmart sContent (min sContent.length ((maxChars - currentChars) / 2))
      caseLoop1 maxChars rest (currentChars + compressedSection.length)
        (parts ++ ["**" ++ name ++ "**\n" ++ compressedSection]) (sk + 1)
    else caseLoop1 maxChars rest currentChars parts sk

/-- Remaining-space pass of `_compress_case_study` over non-priority
sections. -/
def caseLoop2 (maxChars : ℕ) : List (String × String) → ℕ → List String → ℕ →
    List String × ℕ × ℕ
  | [], currentChars, parts, sk => (parts, currentChars, sk)
  | (name, sContent) :: rest, currentChars, parts, sk =>
    if (maxChars : ℚ) * 0.9 ≤ (currentChars : ℚ) then (parts, currentChars, sk)
    else if !(prioritySections.any (fun p => containsSubstr (pyLower name) p)) then
      let remaining := maxChars - currentChars
      if 100 < remaining then
        let compressedSection := compressTextSmart sContent (remaining / 2)
        caseLoop2 maxChars rest (currentChars + compressedSection.length)
          (parts ++ ["**" ++ name ++ "**\n" ++ compressedSection]) (sk + 1)
      else caseLoop2 maxChars rest currentChars parts sk
    else caseLoop2 maxChars rest currentChars parts sk

/-- Model of `ContentCompressor._compress_case_study`. -/
def compressCaseStudy (content : String) (maxTokens : ℕ) :
    String × List (String × MetaVal) :=
  let sections := extractSections content
  let maxChars := maxTokens * 4
  let r1 := caseLoop1 maxChars sections 0 [] 0
  let r2 := caseLoop2 maxChars sections r1.2.1 r1.1 r1.2.2
  (joinWith "\n\n" r2.1, [("sections_kept", MetaVal.natV r2.2.2)])

/-- Match of the numeric date alternative (digit runs of bounded length
joined by dash-or-slash separators, word-bounded on both sides) anchored at
a boundary position; the bounded greedy digit runs must be the maximal runs,
since a shorter take leaves a digit where a separator or boundary is
required. -/
def dateSepMatch (cs : List Char) : Bool :=
  let d1 := cs.takeWhile Char.isDigit
  if d1.length < 1 || 4 < d1.length then false
  else
    match cs.drop d1.length with
    | s1 :: rest1 =>
      (s1 = '-' || s1 = '/') &&
        (let d2 := rest1.takeWhile Char.isDigit
         if d2.length < 1 || 2 < d2.length then false
         else
           match rest1.drop d2.length with
           | s2 :: rest2 =>
             (s2 = '-' || s2 = '/') &&
               (let d3 := rest2.takeWhile Char.isDigit
                if d3.length < 1 || 4 < d3.length then false
                else
                  match rest2.drop d3.length with
                  | [] => true
                  | d :: _ => !isWordChar d)
           | [] => false)
    | [] => false

/-- Match of `\b\d{4}\b` anchored at a boundary position: a maximal digit
run of exactly four, followed by a boundary. -/
def fourDigitMatch (cs : List Char) : Bool :=
  let d := cs.takeWhile Char.isDigit
  d.length = 4 &&
    (match cs.drop 4 with
     | [] => true
     | c :: _ => !isWordChar c)

/-- Scan of the numeric date alternatives over all boundary positions. -/
def dateScan : List Char → Bool → Bool
  | [], _ => false
  | c :: rest, prevIsWord =>
    (!prevIsWord && (dateSepMatch (c :: rest) || fourDigitMatch (c :: rest))) ||
      dateScan rest (isWordChar c)

/-- Model of `re.search(date_pattern, line)` of `_compress_historical`
(matched on the original, un-lowered line). -/
def dateLine (line : String) : Bool :=
  dateScan line.data false ||
    ["century", "decade", "year"].any (fun w => containsSubstr line w)

/-- Line loop of `_compress_historical`, tracking
`(lines, dates_kept, events_kept)`. -/
def historicalLoop (maxChars : ℕ) : List String → ℕ → List String → ℕ → ℕ →
    List String × ℕ × ℕ
  | [], _, acc, dk, ek => (acc, dk, ek)
  | line :: rest, currentChars, acc, dk, ek =>
    if maxChars ≤ currentChars then (acc, dk, ek)
    else if dateLine line then
      if currentChars + line.length ≤ maxChars then
        historicalLoop maxChars rest (currentChars + line.length) (acc ++ [line]) (dk + 1) ek
      else historicalLoop maxChars rest currentChars acc dk ek
    else if line.length < 100 && containsSubstr line ":" then
      if currentChars + line.length ≤ maxChars then
        historicalLoop maxChars rest (currentChars + line.length) (acc ++ [line]) dk (ek + 1)
      else historicalLoop maxChars rest currentChars acc dk ek
    else
      let compressedLine := compressSentence line 80
      if !compressedLine.data.isEmpty && currentChars + compressedLine.length ≤ maxChars then
        historicalLoop maxChars rest (currentChars + compressedLine.length)
          (acc ++ [compressedLine]) dk ek
      else historicalLoop maxChars rest currentChars acc dk ek

/-- Model of `ContentCompressor._compress_historical`. -/
def compressHistorical (content : String) (maxTokens : ℕ) :
    String × List (String × MetaVal) :=
  let res := historicalLoop (maxTokens * 4) (pySplitLines content) 0 [] 0 0
  (joinWith "\n" res.1,
   [("dates_kept", MetaVal.natV res.2.1), ("events_kept", MetaVal.natV res.2.2)])

/-- Continuation marker of `_compress_creative`. -/
def creativeMarker : String := "\n\n[... nội dung tiếp tục ...]\n\n"

/-- Model of `ContentCompressor._compress_creative`: below budget the text
is untouched; above budget the first 40% and last 20% of the character
budget are joined by the continuation marker (`content[-last_part_size:]`
with Python slice semantics). -/
def compressCreative (content : String) (maxTokens : ℕ) :
    String × List (String × MetaVal) :=
  let maxChars := maxTokens * 4
  if content.length ≤ maxChars then (content, [("compression", MetaVal.strV "none")])
  else
    let firstPartSize := pyIntOfRat ((maxChars : ℚ) * 0.4)
    let lastPartSize := pyIntOfRat ((maxChars : ℚ) * 0.2)
    let firstPart := takeChars firstPartSize content
    let lastPart := pySliceFromNeg content lastPartSize
    (firstPart ++ creativeMarker ++ lastPart,
     [("method", MetaVal.strV "beginning_end_preservation"),
      ("first_part_chars", MetaVal.natV firstPartSize),
      ("last_part_chars", MetaVal.natV lastPartSize)])

/-- Error vocabulary of `_compress_troubleshooting`. -/
def errorPatterns : List String := ["error", "exception", "fail", "issue", "problem", "bug"]

/-- Solution vocabulary of `_compress_troubleshooting`. -/
def solutionPatterns : List String := ["fix", "solution", "resolve", "solved", "workaround", "try"]

/-- Line loop of `_compress_troubleshooting`, tracking
`(lines, errors_kept, solutions_kept)`. -/
def troubleshootingLoop (maxChars : ℕ) : List String → ℕ → List String → ℕ → ℕ →
    List String × ℕ × ℕ
  | [], _, acc, ek, sk => (acc, ek, sk)
  | line :: rest, currentChars, acc, ek, sk =>
    if maxChars ≤ currentChars then (acc, ek, sk)
    else
      let lineLower := pyLower line
      if errorPatterns.any (fun p => containsSubstr lineLower p) then
        if currentChars + line.length ≤ maxChars then
          troubleshootingLoop maxChars rest (currentChars + line.length)
            (acc ++ [line]) (ek + 1) sk
        else troubleshootingLoop maxChars rest currentChars acc ek sk
      else if solutionPatterns.any (fun p => containsSubstr lineLower p) then
        if currentChars + line.length ≤ maxChars then
          troubleshootingLoop maxChars rest (currentChars + line.length)
            (acc ++ [line]) ek (sk + 1)
        else troubleshootingLoop maxChars rest currentChars acc ek sk
      else if ["$", ">", "#"].any (fun p => charsStartWith (stripChars line.data) p.data) ||
              containsSubstr line "```" then
        if currentChars + line.length ≤ maxChars then
          troubleshootingLoop maxChars rest (currentChars + line.length) (acc ++ [line]) ek sk
        else troubleshootingLoop maxChars rest currentChars acc ek sk
      else troubleshootingLoop maxChars rest currentChars acc ek sk

/-- Model of `ContentCompressor._compress_troubleshooting`. -/
def compressTroubleshooting (content : String) (maxTokens : ℕ) :
    String × List (String × MetaVal) :=
  let res := troubleshootingLoop (maxTokens * 4) (pySplitLines content) 0 [] 0 0
  (joinWith "\n" res.1,
   [("errors_kept", MetaVal.natV res.2.1), ("solutions_kept", MetaVal.natV res.2.2)])

/-- Model of `ContentCompressor._compress_general`. -/
def compressGeneral (content : String) (maxTokens : ℕ) :
    String × List (String × MetaVal) :=
  let maxChars := maxTokens * 4
  if content.length ≤ maxChars then (content, [("method", MetaVal.strV "no_compression")])
  else (compressTextSmart content maxChars, [("method", MetaVal.strV "smart_summarization")])

/-- Strategy dispatch table `self.compression_strategies`. -/
def applyCompressionStrategy : ContentType → String → ℕ → String × List (String × MetaVal)
  | ContentType.CODE_EXPLANATION, c, m => compressCodeExplanation c m
  | ContentType.CONCEPT_QUESTION, c, m => compressConceptQuestion c m
  | ContentType.CALCULATION_PROBLEM, c, m => compressCalculation c m
  | ContentType.LANGUAGE_PRACTICE, c, m => compressLanguage c m
  | ContentType.CASE_STUDY, c, m => compressCaseStudy c m
  | ContentType.HISTORICAL_ANALYSIS, c, m => compressHistorical c m
  | ContentType.CREATIVE_WORK, c, m => compressCreative c m
  | ContentType.TROUBLESHOOTING, c, m => compressTroubleshooting c m
  | ContentType.GENERAL_DISCUSSION, c, m => compressGeneral c m

/-- Model of `ContentCompressor.compress_content`: detect the content type,
apply its strategy, then add the compression statistics to the metadata. -/
def compressContent (content : String) (maxTokens : ℕ) :
    String × List (String × MetaVal) :=
  let contentType := detectContentType content
  let res := applyCompressionStrategy contentType content maxTokens
  let compressed := res.1
  let md := res.2
  let md := dictInsert md "original_length" (MetaVal.natV content.length)
  let md := dictInsert md "compressed_length" (MetaVal.natV compressed.length)
  let md := dictInsert md "compression_ratio"
    (MetaVal.ratV (if content.data.isEmpty then 0
                   else (compressed.length : ℚ) / (content.length : ℚ)))
  let md := dictInsert md "content_type" (MetaVal.strV (contentTypeValue contentType))
  let md := dictInsert md "estimated_tokens" (MetaVal.natV (compressed.length / 4))
  (compressed, md)

/-! ## Named accessors and concrete example data used by the theorems -/

/-- Pattern score of the `k`-th entry of the pattern table (0 when `k` is
out of range). -/
def patternScoreAt (message : String) (k : ℕ) : ℚ :=
  match patternDefinitions.get? k with
  | some x => calculatePatternScore message x.2
  | none => 0

/-- Category name of the `k`-th entry of the pattern table. -/
def patternNameAt (k : ℕ) : String :=
  ((patternDefinitions.get? k).map Prod.fst).getD ""

/-- Resulting context-need category of the `k`-th entry of the pattern
table. -/
def patternTypeAt (k : ℕ) : ContextNeedType :=
  ((patternDefinitions.get? k).map (fun x => x.2.contextType)).getD ContextNeedType.NONE

/-- Example three-turn history whose last message shares no 3+-letter word
with the probe message `"aaa bbb ccc?"`. -/
def exampleRecent3 : List RecentMsg :=
  [⟨"user", "mmm"⟩, ⟨"assistant", "nnn"⟩, ⟨"user", "qqq www eee"⟩]

/-! ## Theorems -/

/-- C5: for every analyzed context package (including the neutral record of
the failure path) the overall quality score equals
`0.30·relevance + 0.25·completeness + 0.20·efficiency + 0.15·coherence +
0.10·freshness`, the fixed-weight dot product of the five sub-scores of the
returned record (rational arithmetic models float arithmetic exactly). -/
theorem c5_overall_weighted_sum (failed : Bool) (pkg : ContextPackage)
    (userMessage : String) (processingTime now : ℚ) :
    (analyzeContextQualityRun failed pkg userMessage processingTime now).overallQuality =
      0.3 * (analyzeContextQualityRun failed pkg userMessage processingTime now).relevanceScore +
      0.25 * (analyzeContextQualityRun failed pkg userMessage processingTime now).completenessScore +
      0.2 * (analyzeContextQualityRun failed pkg userMessage processingTime now).efficiencyScore +
      0.15 * (analyzeContextQualityRun failed pkg userMessage processingTime now).coherenceScore +
      0.1 * (analyzeContextQualityRun failed pkg userMessage processingTime now).freshnessScore := by
  cases failed
  · simp only [analyzeContextQualityRun, if_neg Bool.false_ne_true, analyzeContextQuality]
    ring
  · simp only [analyzeContextQualityRun, if_pos rfl, createDefaultMetrics]
    norm_num

/-- C7: on the failure path (any exception while computing the quality
metrics) the analyzer returns the fixed neutral record: all five sub-scores
and the overall quality equal 0.5 and the tier is AVERAGE, for every
package, message and timing. -/
theorem c7_failure_neutral_metrics (pkg : ContextPackage) (userMessage : String)
    (processingTime now : ℚ) :
    (analyzeContextQualityRun true pkg userMessage processingTime now).relevanceScore = 0.5 ∧
    (analyzeContextQualityRun true pkg userMessage processingTime now).completenessScore = 0.5 ∧
    (analyzeContextQualityRun true pkg userMessage processingTime now).efficiencyScore = 0.5 ∧
    (analyzeContextQualityRun true pkg userMessage processingTime now).coherenceScore = 0.5 ∧
    (analyzeContextQualityRun true pkg userMessage processingTime now).freshnessScore = 0.5 ∧
    (analyzeContextQualityRun true pkg userMessage processingTime now).overallQuality = 0.5 ∧
    (analyzeContextQualityRun true pkg userMessage processingTime now).qualityLevel =
      QualityScore.AVERAGE := by
  simp [analyzeContextQualityRun, createDefaultMetrics]

/-- C1: the budget invariant fails on the code.  For the creative text
`"poemaaaaa"` and token budget 1, `int(max_chars * 0.2) = 0`, so the Python
slice `content[-0:]` keeps the whole original; the result (41 characters) is
longer than the 9-character original and exceeds `budget*4` plus the
31-character continuation marker. -/
theorem c1_budget_code_bug :
    detectContentType "poemaaaaa" = ContentType.CREATIVE_WORK ∧
    (compressContent "poemaaaaa" 1).1.length = 41 ∧
    ("poemaaaaa" : String).length = 9 ∧
    1 * 4 + creativeMarker.length = 35 ∧
    ¬((compressContent "poemaaaaa" 1).1.length ≤ ("poemaaaaa" : String).length) ∧
    ¬((compressContent "poemaaaaa" 1).1.length ≤ 1 * 4 + creativeMarker.length) :=
  of_decide_eq_true (by with_unfolding_all exact rfl)

/-- C3 (counterexample): for the message `"Hello"` with no prior turns the
classifier takes the very-short-message path and returns category NONE with
confidence exactly 0.8, so the claimed bound `confidence ≥ 0.9` fails. -/
theorem c3_counterexample :
    (analyzeContextNeed false none "Hello" []).type = ContextNeedType.NONE ∧
    (analyzeContextNeed false none "Hello" []).confidence = 0.8 ∧
    ¬(0.9 ≤ (analyzeContextNeed false none "Hello" []).confidence) :=
  of_decide_eq_true (by with_unfolding_all exact rfl)

/-- C3 (amended): for the message `"Hello"` with no prior turns the
classifier returns category NONE with confidence at least 0.8. -/
theorem c3_greeting_no_history :
    (analyzeContextNeed false none "Hello" []).type = ContextNeedType.NONE ∧
    0.8 ≤ (analyzeContextNeed false none "Hello" []).confidence :=
  of_decide_eq_true (by with_unfolding_all exact rfl)

/-- C4 (counterexample): for the message `"aaa bbb ccc?"` over a three-turn
history, level 1 yields NONE with confidence 0.6 and level 2 produces
RECENT_ONLY with confidence 0.75, yet `analyze_context_need` returns the
level-1 decision (confidence 0.6, the standalone-question rationale): the
returned decision is not the one with the highest produced confidence. -/
theorem c4_counterexample :
    (enhancedPatternAnalysis "aaa bbb ccc?" exampleRecent3).confidence = 0.6 ∧
    (analyzeWithContext "aaa bbb ccc?" exampleRecent3
      (enhancedPatternAnalysis "aaa bbb ccc?" exampleRecent3)).confidence = 0.75 ∧
    (analyzeContextNeed false none "aaa bbb ccc?" exampleRecent3).confidence = 0.6 ∧
    (analyzeContextNeed false none "aaa bbb ccc?" exampleRecent3).reason = "Câu hỏi độc lập" ∧
    (analyzeContextNeed false none "aaa bbb ccc?" exampleRecent3).confidence <
      (analyzeWithContext "aaa bbb ccc?" exampleRecent3
        (enhancedPatternAnalysis "aaa bbb ccc?" exampleRecent3)).confidence :=
  of_decide_eq_true (by with_unfolding_all exact rfl)

/-- C10 (counterexample): with remote escalation enabled, a parsed remote
response carrying confidence 2.0 is returned unvalidated: the final decision
carries a confidence outside [0,1]. -/
theorem c10_counterexample :
    (analyzeContextNeed true (some (ContextNeedType.RECENT_ONLY, 2)) "zzz yyy xxx" []).confidence
      = 2 ∧
    ¬((analyzeContextNeed true (some (ContextNeedType.RECENT_ONLY, 2)) "zzz yyy xxx"
        []).confidence ≤ 1) :=
  of_decide_eq_true (by with_unfolding_all exact rfl)

/-- C6 (counterexample): the 28-character concept-question text
`"what is x\ny is z\nq is r\nzzzz"` is far below the budget `500*4`, yet the
line-level filter drops the line `"zzzz"`, the result differs from the input
and the metadata carries no `compression: none` / `method: no_compression`
marker. -/
theorem c6_counterexample :
    ("what is x\ny is z\nq is r\nzzzz" : String).length ≤ 500 * 4 ∧
    (compressContent "what is x\ny is z\nq is r\nzzzz" 500).1 = "what is x\ny is z\nq is r" ∧
    (compressContent "what is x\ny is z\nq is r\nzzzz" 500).1 ≠
      "what is x\ny is z\nq is r\nzzzz" ∧
    (compressContent "what is x\ny is z\nq is r\nzzzz" 500).2.lookup "compression" = none ∧
    (compressContent "what is x\ny is z\nq is r\nzzzz" 500).2.lookup "method" = none :=
  of_decide_eq_true (by with_unfolding_all exact rfl)

/-- A list no longer than the capacity is kept whole by `lastN`. -/
theorem lastN_of_length_le {α : Type _} {n : ℕ} {l : List α} (h : l.length ≤ n) :
    lastN n l = l := by
  unfold lastN
  rw [Nat.sub_eq_zero_of_le h, List.drop_zero]

/-- Taking the last `m` elements is idempotent across an appended tail. -/
theorem lastN_append_lastN {α : Type _} (m : ℕ) (a b : List α) :
    lastN m (lastN m a ++ b) = lastN m (a ++ b) := by
  by_cases h : a.length ≤ m
  · rw [lastN_of_length_le h]
  · push_neg at h
    have hA : (a.drop (a.length - m)).length = m := by
      rw [List.length_drop]; omega
    unfold lastN
    by_cases hb : b.length ≤ m
    · have i1 : (a.drop (a.length - m) ++ b).length - m = b.length := by
        rw [List.length_append, hA]; omega
      have i2 : (a ++ b).length - m = a.length - m + b.length := by
        rw [List.length_append]; omega
      rw [i1, i2, List.drop_append_of_le_length (by omega),
        List.drop_append_of_le_length (by omega), List.drop_drop]
    · push_neg at hb
      have i1 : (a.drop (a.length - m) ++ b).length - m =
          (a.drop (a.length - m)).length + (b.length - m) := by
        rw [List.length_append, hA]; omega
      have i2 : (a ++ b).length - m = a.length + (b.length - m) := by
        rw [List.length_append]; omega
      rw [i1, i2, List.drop_append, List.drop_append]

/-- Folding capacity-bounded appends over a nonempty batch keeps the last
`m` elements of the concatenation. -/
theorem foldl_dequeAppend {α : Type _} (m : ℕ) :
    ∀ (batch : List α) (l : List α), batch ≠ [] →
      batch.foldl (dequeAppend m) l = lastN m (l ++ batch)
  | [], _, hne => absurd rfl hne
  | [b], l, _ => rfl
  | b :: b' :: bs, l, _ => by
    show (b' :: bs).foldl (dequeAppend m) (dequeAppend m l b) = _
    rw [foldl_dequeAppend m (b' :: bs) (dequeAppend m l b) (by simp)]
    show lastN m (lastN m (l ++ [b]) ++ (b' :: bs)) = _
    rw [lastN_append_lastN, List.append_assoc]
    rfl

/-- Membership in the last `m` elements, for an element of a short appended
batch. -/
theorem mem_lastN_append {α : Type _} {x : α} {batch : List α} (m : ℕ) (l : List α)
    (hx : x ∈ batch) (hlen : batch.length ≤ m) : x ∈ lastN m (l ++ batch) := by
  unfold lastN
  rw [List.length_append, List.drop_append_of_le_length (by omega)]
  exact List.mem_append_right _ hx

/-- C8: after `record_request` with a 15-second response time against the
default thresholds (p99 = 10 s), `get_recent_alerts(1)` contains a CRITICAL
alert of type `response_time`, whatever the prior monitor state, quality
metrics, error flag and resource probe outcome. -/
theorem c8_alert_firing (s : MonitorState) (modelUsed : String)
    (contextMetrics : Option ContextMetrics) (error : Bool) (res : Option (ℚ × ℚ))
    (now : ℚ) (hthr : s.alertThresholds = defaultAlertThresholds) :
    ∃ a ∈ getRecentAlerts (recordRequest s 15 modelUsed contextMetrics error res now) now 1,
      a.level = AlertLevel.CRITICAL ∧ a.type = "response_time" := by
  have hresp : responseTimeAlerts s.alertThresholds 15 now =
      [⟨AlertLevel.CRITICAL, "response_time", "Extremely slow response",
        15, s.alertThresholds.responseTimeP99, now,
        [ "Check model availability and latency",
          "Verify context size and complexity",
          "Monitor system resources" ]⟩] := by
    unfold responseTimeAlerts
    have hlt : s.alertThresholds.responseTimeP99 < 15 := by
      rw [hthr]
      norm_num [defaultAlertThresholds]
    rw [if_pos hlt]
  have hqlen : (qualityAlerts s.alertThresholds contextMetrics now).length ≤ 1 := by
    cases contextMetrics with
    | none => simp [qualityAlerts]
    | some m =>
      by_cases hq : m.overallQuality < s.alertThresholds.contextQuality <;>
        simp [qualityAlerts, hq]
  have hrlen : (resourceAlerts s.alertThresholds res now).length ≤ 2 := by
    cases res with
    | none => simp [resourceAlerts]
    | some p =>
      obtain ⟨cpu, mem⟩ := p
      by_cases h1 : s.alertThresholds.cpuUsage < cpu <;>
        by_cases h2 : s.alertThresholds.memoryUsage < mem <;>
          simp [resourceAlerts, h1, h2]
  have hbatch : checkRealTimeAlerts s.alertThresholds 15 contextMetrics res now =
      responseTimeAlerts s.alertThresholds 15 now ++
        (qualityAlerts s.alertThresholds contextMetrics now ++
          resourceAlerts s.alertThresholds res now) := by
    unfold checkRealTimeAlerts
    rw [List.append_assoc]
  set crit : PerformanceAlert :=
    ⟨AlertLevel.CRITICAL, "response_time", "Extremely slow response",
     15, s.alertThresholds.responseTimeP99, now,
     [ "Check model availability and latency",
       "Verify context size and complexity",
       "Monitor system resources" ]⟩ with hcrit
  have hmem : crit ∈ checkRealTimeAlerts s.alertThresholds 15 contextMetrics res now := by
    rw [hbatch, hresp]
    exact List.mem_append_left _ (List.mem_singleton.2 rfl)
  have hblen : (checkRealTimeAlerts s.alertThresholds 15 contextMetrics res now).length ≤ 100 := by
    rw [hbatch, hresp]
    rw [List.length_append, List.length_append]
    simp only [List.length_singleton]
    omega
  have hne : checkRealTimeAlerts s.alertThresholds 15 contextMetrics res now ≠ [] := by
    intro hempty
    rw [hempty] at hmem
    exact absurd hmem (List.not_mem_nil crit)
  have halerts : (recordRequest s 15 modelUsed contextMetrics error res now).alerts =
      lastN 100 (s.alerts ++ checkRealTimeAlerts s.alertThresholds 15 contextMetrics res now) := by
    show (checkRealTimeAlerts s.alertThresholds 15 contextMetrics res now).foldl
        (dequeAppend 100) s.alerts = _
    exact foldl_dequeAppend 100 _ s.alerts hne
  refine ⟨crit, ?_, rfl, rfl⟩
  unfold getRecentAlerts
  rw [halerts]
  rw [List.mem_filter]
  constructor
  · exact mem_lastN_append 100 s.alerts hmem hblen
  · simp only [decide_eq_true_eq]
    show now - (1 : ℚ) * 3600 ≤ now
    linarith

/-- C8 witness: a single `record_request(15.0, …)` on a freshly initialized
monitor puts a CRITICAL `response_time` alert into `get_recent_alerts(1)`. -/
theorem c8_alert_firing_witness :
    ∃ a ∈ getRecentAlerts (recordRequest initialMonitorState 15 "gemini" none false none 0) 0 1,
      a.level = AlertLevel.CRITICAL ∧ a.type = "response_time" :=
  c8_alert_firing initialMonitorState "gemini" none false none 0 rfl

/-- A pattern score always lies in `[0, 1]`: the positive fraction is at
most one and the negative-match penalty factor lies in `[1/2, 1]`. -/
theorem calculatePatternScore_bounds (m : String) (c : PatternConfig) :
    0 ≤ calculatePatternScore m c ∧ calculatePatternScore m c ≤ 1 := by
  simp only [calculatePatternScore]
  split_ifs with h1 h2
  · norm_num
  · -- positive matches present, negative matches present
    have hposle := List.countP_le_length (fun p => containsSubstr m p) (l := c.patterns)
    have hpos1 : 1 ≤ c.patterns.countP (fun p => containsSubstr m p) := by omega
    have hlen1 : 1 ≤ c.patterns.length := by omega
    have hnegle := List.countP_le_length (fun p => containsSubstr m p) (l := c.negativePatterns)
    have hneg1 : 1 ≤ c.negativePatterns.countP (fun p => containsSubstr m p) := by omega
    have hnlen1 : 1 ≤ c.negativePatterns.length := by omega
    have hlq : (0 : ℚ) < (c.patterns.length : ℚ) := by exact_mod_cast hlen1
    have hnlq : (0 : ℚ) < (c.negativePatterns.length : ℚ) := by exact_mod_cast hnlen1
    have hs0 : (0 : ℚ) ≤ (c.patterns.countP (fun p => containsSubstr m p) : ℚ) /
        (c.patterns.length : ℚ) := by positivity
    have hs1 : (c.patterns.countP (fun p => containsSubstr m p) : ℚ) /
        (c.patterns.length : ℚ) ≤ 1 := by
      rw [div_le_one hlq]
      exact_mod_cast hposle
    have hq0 : (0 : ℚ) ≤ (c.negativePatterns.countP (fun p => containsSubstr m p) : ℚ) /
        (c.negativePatterns.length : ℚ) := by positivity
    have hq1 : (c.negativePatterns.countP (fun p => containsSubstr m p) : ℚ) /
        (c.negativePatterns.length : ℚ) ≤ 1 := by
      rw [div_le_one hnlq]
      exact_mod_cast hnegle
    constructor
    · nlinarith
    · nlinarith
  · -- positive matches present, no negative matches
    have hposle := List.countP_le_length (fun p => containsSubstr m p) (l := c.patterns)
    have hpos1 : 1 ≤ c.patterns.countP (fun p => containsSubstr m p) := by omega
    have hlen1 : 1 ≤ c.patterns.length := by omega
    have hlq : (0 : ℚ) < (c.patterns.length : ℚ) := by exact_mod_cast hlen1
    constructor
    · positivity
    · rw [div_le_one hlq]
      exact_mod_cast hposle

/-- The config confidences of the pattern table lie in `[0, 0.95]`. -/
theorem patternConfidence_bounds :
    ∀ x ∈ patternDefinitions, 0 ≤ x.2.confidence ∧ x.2.confidence ≤ 0.95 :=
  of_decide_eq_true (by with_unfolding_all exact rfl)

/-- If everything in the remaining table scores at most the running best,
the scan keeps `(best, bestScore)`. -/
theorem bestMatchLoop_const (msg : String) :
    ∀ (l : List (String × PatternConfig)) (best : Option (String × PatternConfig)) (bs : ℚ),
      (∀ x ∈ l, calculatePatternScore msg x.2 ≤ bs) →
      bestMatchLoop msg l best bs = (best, bs)
  | [], _, _, _ => rfl
  | (n, c) :: rest, best, bs, h => by
    unfold bestMatchLoop
    rw [if_neg (not_lt.2 (h (n, c) (List.mem_cons_self _ _)))]
    exact bestMatchLoop_const msg rest best bs (fun x hx => h x (List.mem_cons_of_mem _ hx))

/-- The scan result: when the best match is some entry, its score is the
returned best score and the entry comes from the table (or was the running
best). -/
theorem bestMatchLoop_mem (msg : String) :
    ∀ (l : List (String × PatternConfig)) (best : Option (String × PatternConfig)) (bs : ℚ),
      (∀ x, best = some x → bs = calculatePatternScore msg x.2) →
      ∀ y, (bestMatchLoop msg l best bs).1 = some y →
        (bestMatchLoop msg l best bs).2 = calculatePatternScore msg y.2 ∧
          (y ∈ l ∨ best = some y)
  | [], best, bs, hbest, y, hy => by
    simp only [bestMatchLoop] at hy ⊢
    exact ⟨hbest y hy, Or.inr hy⟩
  | (n, c) :: rest, best, bs, hbest, y, hy => by
    rw [bestMatchLoop] at hy ⊢
    by_cases hlt : bs < calculatePatternScore msg c
    · rw [if_pos hlt] at hy ⊢
      have := bestMatchLoop_mem msg rest (some (n, c)) (calculatePatternScore msg c)
        (by intro x hx; cases hx; rfl) y hy
      refine ⟨this.1, ?_⟩
      rcases this.2 with h | h
      · exact Or.inl (List.mem_cons_of_mem _ h)
      · cases h
        exact Or.inl (List.mem_cons_self _ _)
    · rw [if_neg hlt] at hy ⊢
      have := bestMatchLoop_mem msg rest best bs hbest y hy
      refine ⟨this.1, ?_⟩
      rcases this.2 with h | h
      · exact Or.inl (List.mem_cons_of_mem _ h)
      · exact Or.inr h

/-- Bounds of the Python `min(confidence * 1.2, 0.95)` greeting boost. -/
theorem pyMinBoost_bounds {c : ℚ} (hc : 0 ≤ c) :
    0 ≤ pyMin (c * 1.2) 0.95 ∧ pyMin (c * 1.2) 0.95 ≤ 1 := by
  unfold pyMin
  split_ifs with h
  · constructor <;> nlinarith
  · norm_num

/-- The heuristic fallback only produces the confidences 0.7, 0.6, 0.65 and
0.5, all within `[0, 1]`. -/
theorem heuristicAnalysis_confidence_bounds (msg : String) (recent : List RecentMsg) :
    0 ≤ (heuristicAnalysis msg recent).confidence ∧
      (heuristicAnalysis msg recent).confidence ≤ 1 := by
  unfold heuristicAnalysis
  simp only [apply_ite ContextNeed.confidence]
  split_ifs <;> norm_num

/-- Level-1 pattern analysis always yields a confidence in `[0, 1]`. -/
theorem enhancedPatternAnalysis_confidence_bounds (msg : String) (recent : List RecentMsg) :
    0 ≤ (enhancedPatternAnalysis msg recent).confidence ∧
      (enhancedPatternAnalysis msg recent).confidence ≤ 1 := by
  unfold enhancedPatternAnalysis
  by_cases h1 : (pySplitWs msg).length ≤ 2
  · rw [if_pos h1]
    by_cases h2 : recent ≠ []
    · rw [if_pos h2]
      norm_num
    · rw [if_neg h2]
      norm_num
  · rw [if_neg h1]
    rcases hfb : findBestMatch (pyStrip (pyLower msg)) with ⟨bm, bs⟩
    cases bm with
    | none => exact heuristicAnalysis_confidence_bounds msg recent
    | some y =>
      obtain ⟨category, config⟩ := y
      have hfb' : bestMatchLoop (pyStrip (pyLower msg)) patternDefinitions none 0 =
          (some (category, config), bs) := hfb
      have hmem := bestMatchLoop_mem (pyStrip (pyLower msg)) patternDefinitions none 0
        (fun x hx => Option.noConfusion hx) (category, config) (by rw [hfb'])
      rw [hfb'] at hmem
      have hcfgmem : (category, config) ∈ patternDefinitions := by
        rcases hmem.2 with h | h
        · exact h
        · exact Option.noConfusion h
      have hconf := patternConfidence_bounds (category, config) hcfgmem
      have hscore := calculatePatternScore_bounds (pyStrip (pyLower msg)) config
      have hbs : bs = calculatePatternScore (pyStrip (pyLower msg)) config := hmem.1
      have hbs0 : 0 ≤ bs := hbs ▸ hscore.1
      have hbs1 : bs ≤ 1 := hbs ▸ hscore.2
      have hcb0 : (0 : ℚ) ≤ config.confidence * bs := mul_nonneg hconf.1 hbs0
      have hcb1 : config.confidence * bs ≤ 1 := by nlinarith [hconf.2]
      dsimp only
      by_cases h3 : 0 < bs
      · rw [if_pos h3]
        simp only [apply_ite ContextNeed.confidence]
        by_cases h4 : category = "greeting" ∧ recent = []
        · rw [if_pos h4]
          exact pyMinBoost_bounds hcb0
        · rw [if_neg h4]
          exact ⟨hcb0, hcb1⟩
      · rw [if_neg h3]
        exact heuristicAnalysis_confidence_bounds msg recent

/-- Level-2 adjustment either installs a fixed confidence (0.75 or 0.8) or
returns the initial decision, so it preserves confidence bounds. -/
theorem analyzeWithContext_confidence_bounds (msg : String) (recent : List RecentMsg)
    (initial : ContextNeed) (hinit : 0 ≤ initial.confidence ∧ initial.confidence ≤ 1) :
    0 ≤ (analyzeWithContext msg recent initial).confidence ∧
      (analyzeWithContext msg recent initial).confidence ≤ 1 := by
  unfold analyzeWithContext
  split_ifs
  · norm_num
  · norm_num
  · exact hinit

/-- C10 (amended): every decision produced by the classifier — pattern
scoring, context-aware adjustment, or remote escalation including its
fallback — carries a confidence in `[0, 1]`, provided the confidence
reported by a parsed remote-completion response itself lies in `[0, 1]`
(the source passes that value through without validation). -/
theorem c10_confidence_bounds (enableLlmAnalysis : Bool)
    (llmResp : Option (ContextNeedType × ℚ)) (msg : String) (recent : List RecentMsg)
    (hllm : ∀ t c, llmResp = some (t, c) → 0 ≤ c ∧ c ≤ 1) :
    0 ≤ (analyzeContextNeed enableLlmAnalysis llmResp msg recent).confidence ∧
      (analyzeContextNeed enableLlmAnalysis llmResp msg recent).confidence ≤ 1 := by
  have hp := enhancedPatternAnalysis_confidence_bounds msg recent
  have hc := analyzeWithContext_confidence_bounds msg recent _ hp
  have hs : 0 ≤ (smartLlmAnalysis llmResp msg).confidence ∧
      (smartLlmAnalysis llmResp msg).confidence ≤ 1 := by
    cases llmResp with
    | none => norm_num [smartLlmAnalysis]
    | some p =>
      obtain ⟨t, c⟩ := p
      simpa [smartLlmAnalysis] using hllm t c rfl
  simp only [analyzeContextNeed]
  split_ifs
  · exact hp
  · exact hc
  · exact hs
  · exact hp
  · exact hp

/-- C10 witness: a concrete run with escalation disabled stays in
`[0, 1]`. -/
theorem c10_confidence_bounds_witness :
    0 ≤ (analyzeContextNeed false none "Hello" []).confidence ∧
      (analyzeContextNeed false none "Hello" []).confidence ≤ 1 :=
  c10_confidence_bounds false none "Hello" [] (fun _ _ h => Option.noConfusion h)

/-- C4 (amended): the returned decision is one of the three levels'
results and its confidence is at least level 1's; however a later level's
result is only returned over level 1 when it clears the 0.8 threshold
(level 2) or strictly beats level 1's confidence (level 3) — a level-2
result below the threshold is discarded even when its confidence is
strictly higher than the returned one. -/
theorem c4_escalation_structure (enableLlmAnalysis : Bool)
    (llmResp : Option (ContextNeedType × ℚ)) (msg : String) (recent : List RecentMsg) :
    (analyzeContextNeed enableLlmAnalysis llmResp msg recent =
        enhancedPatternAnalysis msg recent ∨
      (analyzeContextNeed enableLlmAnalysis llmResp msg recent =
          analyzeWithContext msg recent (enhancedPatternAnalysis msg recent) ∧
        0.8 ≤ (analyzeContextNeed enableLlmAnalysis llmResp msg recent).confidence) ∨
      (analyzeContextNeed enableLlmAnalysis llmResp msg recent = smartLlmAnalysis llmResp msg ∧
        (enhancedPatternAnalysis msg recent).confidence <
          (analyzeContextNeed enableLlmAnalysis llmResp msg recent).confidence)) ∧
    (enhancedPatternAnalysis msg recent).confidence ≤
      (analyzeContextNeed enableLlmAnalysis llmResp msg recent).confidence := by
  simp only [analyzeContextNeed, confidenceThreshold]
  split_ifs with h1 h2 h3 h4
  · exact ⟨Or.inl rfl, le_refl _⟩
  · refine ⟨Or.inr (Or.inl ⟨rfl, h2.2⟩), ?_⟩
    have := h2.2
    push_neg at h1
    linarith
  · exact ⟨Or.inr (Or.inr ⟨rfl, h4⟩), le_of_lt h4⟩
  · exact ⟨Or.inl rfl, le_refl _⟩
  · exact ⟨Or.inl rfl, le_refl _⟩

/-- The scan selects the first table entry with the strictly greatest
score: if entry `i` scores above the running best, beats every earlier
entry strictly and every entry at least weakly, it is selected with its
score. -/
theorem bestMatchLoop_argmax (msg : String) :
    ∀ (l : List (String × PatternConfig)) (i : ℕ) (x : String × PatternConfig)
      (best : Option (String × PatternConfig)) (bs : ℚ),
      l.get? i = some x →
      bs < calculatePatternScore msg x.2 →
      (∀ k y, k < i → l.get? k = some y →
        calculatePatternScore msg y.2 < calculatePatternScore msg x.2) →
      (∀ y ∈ l, calculatePatternScore msg y.2 ≤ calculatePatternScore msg x.2) →
      bestMatchLoop msg l best bs = (some x, calculatePatternScore msg x.2) := by
  intro l
  induction l with
  | nil =>
    intro i x best bs hget
    simp at hget
  | cons hd rest ih =>
    intro i x best bs hget hbs hfirst hmax
    cases i with
    | zero =>
      have hx : hd = x := by
        simpa using hget
      subst hx
      rw [bestMatchLoop, if_pos hbs]
      exact bestMatchLoop_const msg rest _ _
        (fun y hy => hmax y (List.mem_cons_of_mem _ hy))
    | succ j =>
      have hhd : calculatePatternScore msg hd.2 < calculatePatternScore msg x.2 :=
        hfirst 0 hd (Nat.succ_pos j) rfl
      rw [bestMatchLoop]
      by_cases hlt : bs < calculatePatternScore msg hd.2
      · rw [if_pos hlt]
        exact ih j x (some hd) _ hget hhd
          (fun k y hk hky => hfirst (k + 1) y (Nat.succ_lt_succ hk) hky)
          (fun y hy => hmax y (List.mem_cons_of_mem _ hy))
      · rw [if_neg hlt]
        exact ih j x best bs hget hbs
          (fun k y hk hky => hfirst (k + 1) y (Nat.succ_lt_succ hk) hky)
          (fun y hy => hmax y (List.mem_cons_of_mem _ hy))

/-- C9: for a message longer than two tokens, if the `i`-th and `j`-th
categories of the priority order (greeting, new-topic, continuation,
clarification, reference, historical, search, summary) tie at the maximal
positive pattern score, level-1 pattern scoring selects the earlier one:
the returned decision carries its name and its context-need category. -/
theorem c9_tie_break_priority (msg : String) (recent : List RecentMsg) (i j : ℕ)
    (hlen : 2 < (pySplitWs msg).length) (hij : i < j) (hj : j < patternDefinitions.length)
    (heq : patternScoreAt (pyStrip (pyLower msg)) j = patternScoreAt (pyStrip (pyLower msg)) i)
    (hpos : 0 < patternScoreAt (pyStrip (pyLower msg)) i)
    (hfirst : ∀ k, k < i → patternScoreAt (pyStrip (pyLower msg)) k <
      patternScoreAt (pyStrip (pyLower msg)) i)
    (hmax : ∀ k, k < patternDefinitions.length →
      patternScoreAt (pyStrip (pyLower msg)) k ≤ patternScoreAt (pyStrip (pyLower msg)) i) :
    (enhancedPatternAnalysis msg recent).reason = "Pattern match: " ++ patternNameAt i ∧
    (enhancedPatternAnalysis msg recent).type = patternTypeAt i := by
  set ml := pyStrip (pyLower msg) with hml
  have hi : i < patternDefinitions.length := lt_trans hij hj
  rcases hx : patternDefinitions.get? i with _ | x
  · rw [List.get?_eq_none] at hx
    omega
  obtain ⟨category, config⟩ := x
  have hscore_i : patternScoreAt ml i = calculatePatternScore ml config := by
    unfold patternScoreAt
    rw [hx]
  have hfirst' : ∀ k y, k < i → patternDefinitions.get? k = some y →
      calculatePatternScore ml y.2 < calculatePatternScore ml config := by
    intro k y hk hky
    have h := hfirst k hk
    rw [hscore_i] at h
    unfold patternScoreAt at h
    rw [hky] at h
    exact h
  have hmax' : ∀ y ∈ patternDefinitions,
      calculatePatternScore ml y.2 ≤ calculatePatternScore ml config := by
    intro y hy
    obtain ⟨k, hky⟩ := List.mem_iff_get?.1 hy
    have hk : k < patternDefinitions.length := by
      by_contra hc
      rw [List.get?_eq_none.2 (by omega)] at hky
      exact Option.noConfusion hky
    have h := hmax k hk
    rw [hscore_i] at h
    unfold patternScoreAt at h
    rw [hky] at h
    exact h
  have hpos' : (0 : ℚ) < calculatePatternScore ml config := by
    rw [← hscore_i]
    exact hpos
  have hfb : findBestMatch ml = (some (category, config), calculatePatternScore ml config) :=
    bestMatchLoop_argmax ml patternDefinitions i (category, config) none 0 hx hpos' hfirst' hmax'
  unfold enhancedPatternAnalysis
  rw [if_neg (by omega)]
  rw [← hml, hfb]
  dsimp only
  rw [if_pos hpos']
  constructor
  · show "Pattern match: " ++ category = "Pattern match: " ++ patternNameAt i
    unfold patternNameAt
    rw [hx]
    rfl
  · show config.contextType = patternTypeAt i
    unfold patternTypeAt
    rw [hx]
    rfl

/-- C9 witness: on `"huh above qqq"` the clarification (index 3) and
reference (index 4) categories tie at the maximal positive score 1/11, and
the clarification category — earlier in the priority order — is
selected. -/
theorem c9_tie_break_priority_witness :
    (enhancedPatternAnalysis "huh above qqq" []).reason = "Pattern match: " ++ patternNameAt 3 ∧
    (enhancedPatternAnalysis "huh above qqq" []).type = patternTypeAt 3 :=
  c9_tie_break_priority "huh above qqq" [] 3 4
    (of_decide_eq_true (by with_unfolding_all exact rfl))
    (by omega)
    (of_decide_eq_true (by with_unfolding_all exact rfl))
    (of_decide_eq_true (by with_unfolding_all exact rfl))
    (of_decide_eq_true (by with_unfolding_all exact rfl))
    (of_decide_eq_true (by with_unfolding_all exact rfl))
    (of_decide_eq_true (by with_unfolding_all exact rfl))

/-- A list of nonnegative rationals has a nonnegative sum. -/
theorem listSum_nonneg : ∀ {l : List ℚ}, (∀ x ∈ l, 0 ≤ x) → 0 ≤ l.sum
  | [], _ => le_refl 0
  | a :: t, h => by
    rw [List.sum_cons]
    have ht := listSum_nonneg (fun x hx => h x (List.mem_cons_of_mem _ hx))
    have ha := h a (List.mem_cons_self _ _)
    linarith

/-- A list of rationals bounded by one sums to at most its length. -/
theorem listSum_le_length : ∀ {l : List ℚ}, (∀ x ∈ l, x ≤ 1) → l.sum ≤ (l.length : ℚ)
  | [], _ => by simp
  | a :: t, h => by
    rw [List.sum_cons, List.length_cons]
    have ht := listSum_le_length (fun x hx => h x (List.mem_cons_of_mem _ hx))
    have ha := h a (List.mem_cons_self _ _)
    push_cast
    linarith

/-- The mean of a nonempty list of values in `[0, 1]` lies in `[0, 1]`. -/
theorem listMean_bounds {l : List ℚ} (hne : l ≠ []) (h : ∀ x ∈ l, 0 ≤ x ∧ x ≤ 1) :
    0 ≤ l.sum / (l.length : ℚ) ∧ l.sum / (l.length : ℚ) ≤ 1 := by
  have hlen : 0 < l.length := List.length_pos.2 hne
  have hlq : (0 : ℚ) < (l.length : ℚ) := by exact_mod_cast hlen
  have h0 : 0 ≤ l.sum := listSum_nonneg (fun x hx => (h x hx).1)
  have h1 : l.sum ≤ (l.length : ℚ) := listSum_le_length (fun x hx => (h x hx).2)
  exact ⟨by positivity, by rw [div_le_one hlq]; exact h1⟩

/-- Text relevance is a keyword-match fraction and lies in `[0, 1]`. -/
theorem calculateTextRelevance_bounds (text : String) (keywords : List String) :
    0 ≤ calculateTextRelevance text keywords ∧ calculateTextRelevance text keywords ≤ 1 := by
  simp only [calculateTextRelevance]
  split_ifs with h
  · norm_num
  · have hk : keywords ≠ [] := by
      intro hke
      apply h
      rw [hke]
      simp
    have hlen : 0 < keywords.length := List.length_pos.2 hk
    have hlq : (0 : ℚ) < (keywords.length : ℚ) := by exact_mod_cast hlen
    have hle := List.countP_le_length
      (fun k => containsSubstr (pyLower text) (pyLower k)) (l := keywords)
    exact ⟨by positivity, by rw [div_le_one hlq]; exact_mod_cast hle⟩

/-- Mean text relevance over a message list lies in `[0, 1]`. -/
theorem calculateMessageRelevance_bounds (messages : List Message) (keywords : List String) :
    0 ≤ calculateMessageRelevance messages keywords ∧
      calculateMessageRelevance messages keywords ≤ 1 := by
  simp only [calculateMessageRelevance]
  split_ifs with h
  · norm_num
  · have hm : messages ≠ [] := by
      intro hme
      apply h
      rw [hme]
      simp
    have hb : ∀ x ∈ messages.map (fun m => calculateTextRelevance m.content keywords),
        0 ≤ x ∧ x ≤ 1 := by
      intro x hx
      obtain ⟨m, _, hmx⟩ := List.mem_map.1 hx
      rw [← hmx]
      exact calculateTextRelevance_bounds m.content keywords
    have hmean := listMean_bounds (l := messages.map
      (fun m => calculateTextRelevance m.content keywords)) (by simpa using hm) hb
    rw [List.length_map] at hmean
    exact hmean

/-- Bounds of the final renormalization `score / total_weight` (0.5 when no
source was present). -/
theorem finalDiv_bounds {acc : ℚ × ℚ} (h : 0 ≤ acc.1 ∧ acc.1 ≤ acc.2) :
    0 ≤ (if 0 < acc.2 then acc.1 / acc.2 else (0.5 : ℚ)) ∧
      (if 0 < acc.2 then acc.1 / acc.2 else (0.5 : ℚ)) ≤ 1 := by
  split_ifs with hw
  · exact ⟨div_nonneg h.1 hw.le, (div_le_one hw).2 h.2⟩
  · norm_num

/-- One conditional accumulation step of the relevance score preserves
`0 ≤ score ≤ total_weight`. -/
theorem accumStep_bounds (P : Prop) [Decidable P] {acc : ℚ × ℚ} (r wt : ℚ)
    (hacc : 0 ≤ acc.1 ∧ acc.1 ≤ acc.2) (hr : 0 ≤ r ∧ r ≤ 1) (hwt : 0 ≤ wt) :
    0 ≤ (if P then (acc.1 + r * wt, acc.2 + wt) else acc).1 ∧
      (if P then (acc.1 + r * wt, acc.2 + wt) else acc).1 ≤
        (if P then (acc.1 + r * wt, acc.2 + wt) else acc).2 := by
  split_ifs with h
  · dsimp only
    constructor
    · nlinarith [hacc.1, hr.1]
    · nlinarith [hacc.2, hr.2]
  · exact hacc

/-- The renormalized weighted relevance score lies in `[0, 1]`. -/
theorem calculateRelevanceScore_bounds (pkg : ContextPackage) (userMessage : String) :
    0 ≤ calculateRelevanceScore pkg userMessage ∧
      calculateRelevanceScore pkg userMessage ≤ 1 := by
  have h1 := calculateMessageRelevance_bounds pkg.recent (analyzerExtractKeywords userMessage)
  have h2 := calculateMessageRelevance_bounds pkg.relevant (analyzerExtractKeywords userMessage)
  have h3 := calculateTextRelevance_bounds (pkg.summary.getD "") (analyzerExtractKeywords userMessage)
  have h4 := calculateMessageRelevance_bounds (lastN 5 pkg.historical)
    (analyzerExtractKeywords userMessage)
  simp only [calculateRelevanceScore]
  by_cases hke : (analyzerExtractKeywords userMessage).isEmpty
  · rw [if_pos hke]
    norm_num
  · rw [if_neg hke]
    have b0 : 0 ≤ (((0 : ℚ), (0 : ℚ)) : ℚ × ℚ).1 ∧
        (((0 : ℚ), (0 : ℚ)) : ℚ × ℚ).1 ≤ (((0 : ℚ), (0 : ℚ)) : ℚ × ℚ).2 := by norm_num
    have b1 := accumStep_bounds (pkg.recent ≠ [])
      (calculateMessageRelevance pkg.recent (analyzerExtractKeywords userMessage))
      (0.4 : ℚ) b0 h1 (by norm_num)
    have b2 := accumStep_bounds (pkg.relevant ≠ [])
      (calculateMessageRelevance pkg.relevant (analyzerExtractKeywords userMessage))
      (0.35 : ℚ) b1 h2 (by norm_num)
    have b3 := accumStep_bounds (optStrTruthy pkg.summary = true)
      (calculateTextRelevance (pkg.summary.getD "") (analyzerExtractKeywords userMessage))
      (0.15 : ℚ) b2 h3 (by norm_num)
    have b4 := accumStep_bounds (pkg.historical ≠ [])
      (calculateMessageRelevance (lastN 5 pkg.historical) (analyzerExtractKeywords userMessage))
      (0.1 : ℚ) b3 h4 (by norm_num)
    exact finalDiv_bounds b4

/-- Capping a nonnegative quantity at `1.0` keeps it in `[0, 1]`. -/
theorem pyMin_one_bounds (s : ℚ) (hs : 0 ≤ s) :
    0 ≤ pyMin s 1.0 ∧ pyMin s 1.0 ≤ 1 := by
  unfold pyMin
  split_ifs with h
  · exact ⟨hs, by linarith⟩
  · norm_num

/-- The completeness rubric only produces values in `[0, 1]`. -/
theorem calculateCompletenessScore_bounds (pkg : ContextPackage) (userMessage : String) :
    0 ≤ calculateCompletenessScore pkg userMessage ∧
      calculateCompletenessScore pkg userMessage ≤ 1 := by
  obtain ⟨rec, summ, rel, hist, ct, tok⟩ := pkg
  simp only [calculateCompletenessScore]
  refine pyMin_one_bounds _ ?_
  cases ct <;> (try dsimp only) <;> split_ifs <;> norm_num

/-- The three-way efficiency formula stays in `[0, 1]` for any token count
and any ideal range. -/
theorem effBranch_bounds (tok mn mx : ℕ) :
    0 ≤ (if tok ≤ mx ∧ mn ≤ tok then (1.0 : ℚ)
         else if tok < mn then 0.7 + 0.3 * ((tok : ℚ) / (mn : ℚ))
         else 1.0 - pyMin (((tok - mx : ℕ) : ℚ) / (mx : ℚ)) 0.7) ∧
      (if tok ≤ mx ∧ mn ≤ tok then (1.0 : ℚ)
         else if tok < mn then 0.7 + 0.3 * ((tok : ℚ) / (mn : ℚ))
         else 1.0 - pyMin (((tok - mx : ℕ) : ℚ) / (mx : ℚ)) 0.7) ≤ 1 := by
  split_ifs with h1 h2
  · norm_num
  · have hmn : (0 : ℚ) < (mn : ℚ) := by
      have : 0 < mn := Nat.pos_of_ne_zero (by omega)
      exact_mod_cast this
    have htok : (tok : ℚ) ≤ (mn : ℚ) := by
      have : tok ≤ mn := h2.le
      exact_mod_cast this
    have hq0 : 0 ≤ (tok : ℚ) / (mn : ℚ) := div_nonneg (by positivity) hmn.le
    have hq1 : (tok : ℚ) / (mn : ℚ) ≤ 1 := (div_le_one hmn).2 htok
    constructor <;> nlinarith
  · have hp0 : 0 ≤ (((tok - mx : ℕ) : ℚ)) / (mx : ℚ) := by positivity
    unfold pyMin
    split_ifs with h3
    · constructor <;> linarith
    · norm_num

/-- The efficiency score lies in `[0, 1]` for every package. -/
theorem calculateEfficiencyScore_bounds (pkg : ContextPackage) :
    0 ≤ calculateEfficiencyScore pkg ∧ calculateEfficiencyScore pkg ≤ 1 := by
  simp only [calculateEfficiencyScore]
  exact effBranch_bounds pkg.totalTokensEstimate (idealTokenRange pkg.contextType).1
    (idealTokenRange pkg.contextType).2

/-- A count over at most `t` items divided by `t` lies in `[0, 1]`. -/
theorem natDiv_bounds {c t : ℕ} (hct : c ≤ t) (ht : 0 < t) :
    0 ≤ (c : ℚ) / (t : ℚ) ∧ (c : ℚ) / (t : ℚ) ≤ 1 := by
  have htq : (0 : ℚ) < (t : ℚ) := by exact_mod_cast ht
  have hcq : (c : ℚ) ≤ (t : ℚ) := by exact_mod_cast hct
  exact ⟨div_nonneg (by positivity) htq.le, (div_le_one htq).2 hcq⟩

/-- Temporal coherence is a fraction of ordered pairs, hence in `[0, 1]`. -/
theorem checkTemporalCoherence_bounds (messages : List Message) :
    0 ≤ checkTemporalCoherence messages ∧ checkTemporalCoherence messages ≤ 1 := by
  simp only [checkTemporalCoherence]
  split_ifs with h1 h2
  · norm_num
  · refine natDiv_bounds ?_ h2
    calc (messages.zip messages.tail).countP
          (fun p => decide (p.1.timestamp ≤ p.2.timestamp))
        ≤ (messages.zip messages.tail).length := List.countP_le_length _
      _ ≤ messages.length - 1 := by
          rw [List.length_zip, List.length_tail]
          omega
  · norm_num

/-- Role coherence is a fraction of speaker changes, hence in `[0, 1]`. -/
theorem checkRoleCoherence_bounds (messages : List Message) :
    0 ≤ checkRoleCoherence messages ∧ checkRoleCoherence messages ≤ 1 := by
  simp only [checkRoleCoherence]
  split_ifs with h1 h2
  · norm_num
  · refine natDiv_bounds ?_ h2
    calc (messages.zip messages.tail).countP (fun p => decide (p.1.role ≠ p.2.role))
        ≤ (messages.zip messages.tail).length := List.countP_le_length _
      _ ≤ messages.length - 1 := by
          rw [List.length_zip, List.length_tail]
          omega
  · norm_num

/-- Each adjacent-pair Jaccard similarity lies in `[0, 1]`. -/
theorem topicalPairScores_mem_bounds (messages : List Message) :
    ∀ x ∈ topicalPairScores messages, 0 ≤ x ∧ x ≤ 1 := by
  intro x hx
  unfold topicalPairScores at hx
  rcases List.mem_filterMap.1 hx with ⟨p, hp, hsome⟩
  dsimp only at hsome
  split_ifs at hsome with hcond ht
  · obtain rfl := Option.some.inj hsome
    refine natDiv_bounds ?_ ht
    rw [List.length_append]
    calc ((dedupKeepFirst (analyzerExtractKeywords p.1.content) []).filter
            (fun w => (dedupKeepFirst (analyzerExtractKeywords p.2.content) []).contains w)).length
        ≤ (dedupKeepFirst (analyzerExtractKeywords p.1.content) []).length :=
          List.length_filter_le _ _
      _ ≤ _ := Nat.le_add_right _ _
  · obtain rfl := Option.some.inj hsome
    norm_num

/-- Topical coherence is either a constant `0.5`/`1.0` or a mean of Jaccard
similarities, hence in `[0, 1]`. -/
theorem checkTopicalCoherence_bounds (messages : List Message) :
    0 ≤ checkTopicalCoherence messages ∧ checkTopicalCoherence messages ≤ 1 := by
  simp only [checkTopicalCoherence]
  split_ifs with h1 h2 h3
  · norm_num
  · norm_num
  · exact listMean_bounds h3 (topicalPairScores_mem_bounds messages)
  · norm_num

/-- The coherence score is a convex-like combination of three `[0, 1]`
quantities with weights summing to one, hence in `[0, 1]`. -/
theorem calculateCoherenceScore_bounds (pkg : ContextPackage) :
    0 ≤ calculateCoherenceScore pkg ∧ calculateCoherenceScore pkg ≤ 1 := by
  simp only [calculateCoherenceScore]
  split_ifs with h
  · norm_num
  · have ht := checkTemporalCoherence_bounds pkg.recent
    have hp := checkTopicalCoherence_bounds pkg.recent
    have hr := checkRoleCoherence_bounds pkg.recent
    constructor <;> nlinarith [ht.1, ht.2, hp.1, hp.2, hr.1, hr.2]

/-- The step decay only takes the values `1.0`, `0.8`, `0.6`, `0.3`. -/
theorem freshnessDecay_bounds (ageHours : ℚ) :
    0 ≤ freshnessDecay ageHours ∧ freshnessDecay ageHours ≤ 1 := by
  unfold freshnessDecay
  split_ifs <;> norm_num

/-- The freshness score is a mean of step-decay values, hence in `[0, 1]`. -/
theorem calculateFreshnessScore_bounds (now : ℚ) (pkg : ContextPackage) :
    0 ≤ calculateFreshnessScore now pkg ∧ calculateFreshnessScore now pkg ≤ 1 := by
  simp only [calculateFreshnessScore]
  split_ifs with h1 h2
  · norm_num
  · norm_num
  · refine listMean_bounds ?_ ?_
    · intro hempty
      rw [hempty] at h2
      exact h2 rfl
    · intro x hx
      rcases List.mem_map.1 hx with ⟨m, _, rfl⟩
      exact freshnessDecay_bounds _

/-- C2: for every context package (including the empty one) and every user
message, `analyze_context_quality` returns metrics whose five sub-scores
(relevance, completeness, efficiency, coherence, freshness) and overall
quality all lie in the closed interval `[0, 1]`. -/
theorem c2_quality_scores_bounded (pkg : ContextPackage) (userMessage : String)
    (processingTime now : ℚ) :
    (0 ≤ (analyzeContextQuality pkg userMessage processingTime now).relevanceScore ∧
      (analyzeContextQuality pkg userMessage processingTime now).relevanceScore ≤ 1) ∧
    (0 ≤ (analyzeContextQuality pkg userMessage processingTime now).completenessScore ∧
      (analyzeContextQuality pkg userMessage processingTime now).completenessScore ≤ 1) ∧
    (0 ≤ (analyzeContextQuality pkg userMessage processingTime now).efficiencyScore ∧
      (analyzeContextQuality pkg userMessage processingTime now).efficiencyScore ≤ 1) ∧
    (0 ≤ (analyzeContextQuality pkg userMessage processingTime now).coherenceScore ∧
      (analyzeContextQuality pkg userMessage processingTime now).coherenceScore ≤ 1) ∧
    (0 ≤ (analyzeContextQuality pkg userMessage processingTime now).freshnessScore ∧
      (analyzeContextQuality pkg userMessage processingTime now).freshnessScore ≤ 1) ∧
    (0 ≤ (analyzeContextQuality pkg userMessage processingTime now).overallQuality ∧
      (analyzeContextQuality pkg userMessage processingTime now).overallQuality ≤ 1) := by
  have h1 := calculateRelevanceScore_bounds pkg userMessage
  have h2 := calculateCompletenessScore_bounds pkg userMessage
  have h3 := calculateEfficiencyScore_bounds pkg
  have h4 := calculateCoherenceScore_bounds pkg
  have h5 := calculateFreshnessScore_bounds now pkg
  simp only [analyzeContextQuality]
  refine ⟨h1, h2, h3, h4, h5, ?_, ?_⟩ <;>
    nlinarith [h1.1, h1.2, h2.1, h2.2, h3.1, h3.2, h4.1, h4.2, h5.1, h5.2]

/-- C6 (amended): for text in the general-discussion or creative-work
category whose length is at most `budget * 4` characters,
`compress_content` returns the text unchanged. -/
theorem c6_noop_below_budget (text : String) (budget : ℕ)
    (hdet : detectContentType text = ContentType.GENERAL_DISCUSSION ∨
            detectContentType text = ContentType.CREATIVE_WORK)
    (hlen : text.length ≤ budget * 4) :
    (compressContent text budget).1 = text := by
  simp only [compressContent]
  rcases hdet with h | h <;> rw [h] <;>
    simp only [applyCompressionStrategy, compressGeneral, compressCreative] <;>
    rw [if_pos hlen]

/-- Concrete instance of the amended C6 statement: the four-character text
is in the general category, fits a one-token budget, and round-trips. -/
theorem c6_noop_below_budget_witness :
    (detectContentType "zzzz" = ContentType.GENERAL_DISCUSSION ∨
      detectContentType "zzzz" = ContentType.CREATIVE_WORK) ∧
    "zzzz".length ≤ 1 * 4 ∧ (compressContent "zzzz" 1).1 = "zzzz" :=
  ⟨Or.inl (by decide), by decide,
   c6_noop_below_budget "zzzz" 1 (Or.inl (by decide)) (by decide)⟩
